import Mathlib

/-! # lite-xl-libgit2: a shallow embedding of `src/libgit2.c`

The binding is a set of Lua-callable C functions over libgit2.  The embedding
keeps the control flow of each C function and makes its environment explicit:

* every libgit2 / Lua-API call the C code makes is recorded, in order, as an
  `Event`; the answers of the library are read from an oracle record
  (`GitRepo`, `GitRefs`, `GitNet`);
* a Lua C function ends in an `Outcome`: it returns values, raises
  (`luaL_error`), yields (`lua_yieldk`), or does something C does not define
  (`undefined`: a read outside an array, the use of an uninitialised pointer);
* machine integers are `Int`/`Nat` with the conversions written out;
* a C string is a `String` each of whose characters stands for one C `char`;
  a Lua string argument may hold NUL bytes and becomes a C string through
  `luaL_checkstring`.
-/

namespace LibGit2

/-! ## C strings, characters and integers -/

/-- The terminating character of a C string. -/
def NUL : Char := Char.ofNat 0

/-- The C function `strlen`.  A C string is represented by the characters that
precede its terminator, so its length is the number of those characters. -/
def strlen (s : String) : Nat := s.data.length

/-- The character `s[i]` of a C string; index `strlen s` holds the terminator. -/
def char_at (s : String) (i : Nat) : Char := s.data.getD i NUL

/-- Conversion of a `size_t` value to `int` (32 bits, two's complement), as done
by `int length = strlen(name)`: the value is reduced modulo `2^32`. -/
def size_to_int (n : Nat) : Int :=
  if n % 2 ^ 32 < 2 ^ 31 then ((n % 2 ^ 32 : Nat) : Int) else ((n % 2 ^ 32 : Nat) : Int) - 2 ^ 32

/-- The C library function `isxdigit` in the "C" locale: a non-zero value
exactly for the characters `0`-`9`, `a`-`f`, `A`-`F` (the C libraries of the
supported platforms answer 0 for every other argument, negative ones included). -/
def isxdigit (c : Char) : Int :=
  if (48 ≤ c.toNat ∧ c.toNat ≤ 57) ∨ (97 ≤ c.toNat ∧ c.toNat ≤ 102) ∨
      (65 ≤ c.toNat ∧ c.toNat ≤ 70) then 1 else 0

/-- The hexadecimal digits as the specification lists them. -/
def hex_digit_chars : List Char := "0123456789abcdefABCDEF".data

/-- A character is a hexadecimal digit (0-9, a-f, A-F). -/
def is_hex_digit (c : Char) : Prop := c ∈ hex_digit_chars

instance (c : Char) : Decidable (is_hex_digit c) := by
  unfold is_hex_digit; exact inferInstance

/-! ## Object ids -/

/-- Modelled from the spec: the binary id length (`GIT_OID_RAWSZ` of `git2/oid.h`,
which is not part of the sources): ids are 20 bytes, 40 hexadecimal characters. -/
def GIT_OID_RAWSZ : Nat := 20

/-- The libgit2 `git_oid`: `unsigned char id[GIT_OID_RAWSZ]`. -/
structure git_oid where
  id : List (Fin 256)
  size : id.length = GIT_OID_RAWSZ
deriving DecidableEq

/-! ## The Operation record and pointers to it -/

/-- The C function `strncpy(dst, src, n)`: the first `n` cells of `dst` after
the call.  At most `n` characters are copied and the rest is filled with NUL;
when `src` has `n` or more characters no terminator is written. -/
def strncpy (src : String) (n : Nat) : List Char :=
  src.data.take n ++ List.replicate (n - src.data.length) NUL

/-- The struct `operation_t`.  `error` is the array `char error[512]`; `thread`
stands for the `thread_t*` handle. -/
structure operation_t where
  username : String
  password : String
  path : String
  remote : String
  branch : String
  thread : Nat
  complete : Int
  error : List Char
  error_size : error.length = 512
deriving DecidableEq

/-- What a `void*` handed to a work function points at: an `operation_t` object
(with its current contents), or the pointer variable `operation_t* operation`
of the caller (the value of `&operation`). -/
inductive VoidPtr where
  | operation (object : operation_t)
  | pointer_variable
deriving DecidableEq

/-- The string a `%s` conversion reads from a character array: the characters
before the first NUL.  Without a NUL inside the array the read runs past the
last cell, which C leaves undefined (`none`). -/
def c_string (buffer : List Char) : Option String :=
  if NUL ∈ buffer then some (String.mk (buffer.takeWhile (fun c => c ≠ NUL))) else none

/-! ## References and reset kinds -/

/-- The value of a local `git_reference* reference`: not set by anyone, the
null pointer, or the address of a reference object. -/
inductive RefPtr where
  | unset
  | null
  | object
deriving DecidableEq

/-- Modelled from the spec: the reset kinds (`git_reset_t` of `git2/reset.h`,
which is not part of the sources): mode ∈ {soft, mixed, hard}. -/
inductive git_reset_t where
  | GIT_RESET_SOFT
  | GIT_RESET_MIXED
  | GIT_RESET_HARD
deriving DecidableEq

/-! ## The environment: library answers and recorded events -/

/-- Answer of one libgit2 call: its return code (0 is success), the value it
stores through its out-pointer, and the text it leaves as the thread's last
error when it fails (what `git_error_last_string()` then returns). -/
structure Ret (α : Type) where
  code : Int
  out : α
  error : String

/-- The work functions a thread can be started on. -/
inductive WorkerFn where
  | git_remote_fetch_callback
  | git_remote_push_callback
deriving DecidableEq

/-- Calls into libgit2 and the Lua API (and the stores into the Operation), in
the order the C code makes them. -/
inductive Event where
  | git_oid_fromstr (name : String)
  | git_reference_name_to_id (name : String)
  | git_merge_base (one two : git_oid)
  | lua_pushhex (id : git_oid)
  | git_annotated_commit_lookup (id : git_oid)
  | git_merge (id : git_oid)
  | git_annotated_commit_free
  | git_repository_index
  | git_index_has_conflicts
  | git_index_free
  | git_repository_open (path : String)
  | git_remote_lookup (name : String)
  | git_remote_fetch (remote : String)
  | git_remote_push (remote refspec : String)
  | strncpy_error (message : String)
  | set_complete
  | git_remote_free
  | git_repository_free
  | create_thread (func : WorkerFn) (data : VoidPtr)
  | luaL_ref (r : Int) (userdata : VoidPtr)
  | luaL_unref (r : Int)
  | close_thread (thread : Nat)
  | git_branch_lookup (branch_name : String)
  | git_commit_lookup (id : git_oid)
  | git_branch_create (branch_name : String) (commit : git_oid)
  | git_commit_free
  | git_reference_free (reference : RefPtr)
  | git_reset (commit : git_oid) (reset_type : git_reset_t)
deriving DecidableEq

/-- Answers of libgit2 for the repository a synchronous call works on. -/
structure GitRepo where
  git_oid_fromstr : String → Ret git_oid
  git_reference_name_to_id : String → Ret git_oid
  git_merge_base : git_oid → git_oid → Ret git_oid
  git_annotated_commit_lookup : git_oid → Ret Unit
  git_merge : git_oid → Ret Unit
  git_index_has_conflicts : Int

/-- Answers of libgit2 to the calls of the branch and reset functions, on top of
those of `GitRepo`.  For the two branch calls `out` is the value of the local
`reference` after the call: an object when the call succeeds; what a failing
call leaves there is the library's affair (`unset` when it does not touch the
variable, `null` when it clears it). -/
structure GitRefs extends GitRepo where
  git_commit_lookup : git_oid → Ret Unit
  git_branch_lookup : (branch_name : String) → Ret RefPtr
  git_branch_create : (branch_name : String) → (commit : git_oid) → Ret RefPtr
  git_reset : (commit : git_oid) → (reset_type : git_reset_t) → Ret Unit

/-- The two result codes `f_git_repo_create_load_branch` compares against
(`git2/errors.h` is not part of the sources, so their values are parameters). -/
structure BranchCodes where
  GIT_EINVALIDSPEC : Int
  GIT_ENOTFOUND : Int

/-- Answers of libgit2 to the calls of a fetch or push work function.  The
transfer calls receive the credentials through `credential_callback`. -/
structure GitNet where
  git_repository_open : (path : String) → Ret Unit
  git_remote_lookup : (name : String) → Ret Unit
  git_remote_fetch : (remote username password : String) → Ret Unit
  git_remote_push : (remote refspec username password : String) → Ret Unit

/-! ## Lua values and the ways a Lua C function ends -/

/-- A Lua number given by a decimal literal: `mantissa * 10 ^ exponent`. -/
structure LuaNumber where
  mantissa : Int
  exponent : Int
deriving DecidableEq

/-- The Lua values the binding pushes. -/
inductive LuaValue where
  | boolean (b : Bool)
  | number (n : LuaNumber)
  | string (s : String)
deriving DecidableEq

/-- Continuation functions handed to `lua_yieldk`. -/
inductive KFunction where
  | f_git_remote_operationk
deriving DecidableEq

/-- How a call of a Lua C function ends: `return n` with the `n` values it
pushed, `luaL_error` with a message, `lua_yieldk` with the yielded values, the
context and the continuation, or behaviour that C leaves undefined. -/
inductive Outcome where
  | returns (values : List LuaValue)
  | raises (message : String)
  | yields (values : List LuaValue) (ctx : Int) (k : KFunction)
  | undefined
deriving DecidableEq

/-! ## `git_get_id` -/

/-- The loop `for (int i = 0; is_hex && i < length; ++i) is_hex = isxdigit(name[i]);`
of `git_get_id`, started at index `i` with the current `is_hex`.  The first
argument bounds the number of iterations still to run; the loop runs at most
`length - i` times. -/
def is_hex_loop (name : String) (length : Int) : Nat → Nat → Int → Int
  | 0, _, is_hex => is_hex
  | fuel + 1, i, is_hex =>
    if is_hex ≠ 0 ∧ (i : Int) < length then
      is_hex_loop name length fuel (i + 1) (isxdigit (char_at name i))
    else is_hex

/-- The value of `is_hex` in `git_get_id` when its loop has ended. -/
def git_get_id_is_hex (name : String) : Int :=
  let length : Int := size_to_int (strlen name)
  let is_hex : Int := if length = 40 then 1 else 0
  is_hex_loop name length length.toNat 0 is_hex

/-- The C function `git_get_id`: the calls it makes and the answer it passes on. -/
def git_get_id (lib : GitRepo) (name : String) : List Event × Ret git_oid :=
  if git_get_id_is_hex name = 0 then
    ([Event.git_reference_name_to_id name], lib.git_reference_name_to_id name)
  else
    ([Event.git_oid_fromstr name], lib.git_oid_fromstr name)

/-! ## `lua_pushhex` -/

/-- The value of `hex[i]` read through `const char*`.  Whether plain `char` is
signed is fixed by the platform ABI (signed on x86 and x86-64, unsigned on
Linux/ARM); on a signed platform a byte of 0x80 or more reads as negative. -/
def char_value (char_signed : Bool) (b : Fin 256) : Int :=
  if char_signed = true ∧ 128 ≤ b.val then (b.val : Int) - 256 else (b.val : Int)

/-- The C operator `&` on two `int` values: the bitwise AND of their 32-bit two's
complement representations, read back as an `int`. -/
def int_and (a b : Int) : Int :=
  size_to_int (Nat.land (a % 2 ^ 32).toNat (b % 2 ^ 32).toNat)

/-- The string literal `static const char* hexDigits = "0123456789abcdef";`. -/
def hexDigits : String := "0123456789abcdef"

/-- The read `s[k]` from a string literal with an `int` index: defined for
`0 ≤ k ≤ strlen s` (the last index holds the terminator), undefined outside. -/
def literal_at (s : String) (k : Int) : Option Char :=
  if 0 ≤ k ∧ k ≤ (strlen s : Int) then some (char_at s k.toNat) else none

/-- The loop of `lua_pushhex` from index `i` on.  `buffer` is `char buffer[1024]`,
a cell being `none` while nothing has been stored in it.  The first argument
bounds the iterations still to run (at most `sizeof(buffer)/2`).  The result is
`none` when an iteration reads outside `hex` or outside `hexDigits`. -/
def lua_pushhex_loop (char_signed : Bool) (hex : List (Fin 256)) (length : Nat) :
    Nat → Nat → List (Option Char) → Option (List (Option Char))
  | 0, _, buffer => some buffer
  | fuel + 1, i, buffer =>
    if i < length ∧ i < 1024 / 2 then
      match hex.get? i with
      | none => none
      | some b =>
        match literal_at hexDigits (char_value char_signed b >>> 4),
              literal_at hexDigits (int_and (char_value char_signed b) 0xF) with
        | some hi, some lo =>
          lua_pushhex_loop char_signed hex length fuel (i + 1)
            ((buffer.set (i * 2) (some hi)).set (i * 2 + 1) (some lo))
        | _, _ => none
    else some buffer

/-- The characters of a run of cells, when each of them has been stored. -/
def stored_chars : List (Option Char) → Option (List Char)
  | [] => some []
  | none :: _ => none
  | some c :: rest => (stored_chars rest).map (fun cs => c :: cs)

/-- The call `lua_pushlstring(L, buffer, n)`: the string of the first `n` cells;
undefined when `n` exceeds the array or reaches a cell never stored. -/
def lua_pushlstring (buffer : List (Option Char)) (n : Nat) : Option String :=
  if n ≤ buffer.length then (stored_chars (buffer.take n)).map String.mk else none

/-- The C function `lua_pushhex(L, hex, length)`: the Lua string it pushes, or
`none` where its behaviour is undefined. -/
def lua_pushhex (char_signed : Bool) (hex : List (Fin 256)) (length : Nat) : Option String :=
  match lua_pushhex_loop char_signed hex length (1024 / 2) 0 (List.replicate 1024 none) with
  | none => none
  | some buffer => lua_pushlstring buffer (length * 2)

/-! ### Hexadecimal text, as the specification describes it -/

/-- The lowercase hexadecimal digit of a value below 16. -/
def hex_digit (k : Nat) : Char := hexDigits.data.getD k NUL

/-- The lowercase hexadecimal encoding: two digits per byte, high nibble first. -/
def hex_encode : List (Fin 256) → List Char
  | [] => []
  | b :: rest => hex_digit (b.val / 16) :: hex_digit (b.val % 16) :: hex_encode rest

/-- The value of a lowercase hexadecimal digit. -/
def hex_value (c : Char) : Option Nat :=
  if 48 ≤ c.toNat ∧ c.toNat ≤ 57 then some (c.toNat - 48)
  else if 97 ≤ c.toNat ∧ c.toNat ≤ 102 then some (c.toNat - 87)
  else none

/-- Decoding of hexadecimal text into bytes. -/
def hex_decode : List Char → Option (List (Fin 256))
  | [] => some []
  | [_] => none
  | hi :: lo :: rest =>
    match hex_value hi, hex_value lo, hex_decode rest with
    | some h, some l, some bytes => some (Fin.ofNat (h * 16 + l) :: bytes)
    | _, _, _ => none

/-! ## `f_git_repo_merge` -/

/-- The C function `memcmp` over the first `n` bytes of two arrays. -/
def memcmp : List (Fin 256) → List (Fin 256) → Nat → Int
  | a :: as, b :: bs, n + 1 => if a = b then memcmp as bs n else (a.val : Int) - (b.val : Int)
  | _, _, _ => 0

/-- What the fast-forward branch hands to Lua: the one string `lua_pushhex`
pushes, where that call is defined. -/
def pushhex_outcome (char_signed : Bool) (id : git_oid) : Outcome :=
  match lua_pushhex char_signed id.id GIT_OID_RAWSZ with
  | some s => Outcome.returns [LuaValue.string s]
  | none => Outcome.undefined

/-- The Lua C function `f_git_repo_merge`, entered with a valid repository
handle and the string `commit_name` as its arguments: the calls it makes and
how it ends.  `git_repository_index` hands back the index object that the
merge has just loaded into the repository; the source does not read its
return code. -/
def f_git_repo_merge (char_signed : Bool) (lib : GitRepo) (commit_name : String) :
    List Event × Outcome :=
  let r1 := git_get_id lib commit_name
  if r1.2.code ≠ 0 then
    (r1.1, Outcome.raises ("git reference lookup error: " ++ r1.2.error))
  else
    let commit_id := r1.2.out
    let r2 := git_get_id lib "refs/heads/master"
    if r2.2.code ≠ 0 then
      (r1.1 ++ r2.1, Outcome.raises ("git reference lookup error: " ++ r2.2.error))
    else
      let master_id := r2.2.out
      let r3 := lib.git_merge_base master_id commit_id
      let t3 := r1.1 ++ r2.1 ++ [Event.git_merge_base master_id commit_id]
      if r3.code ≠ 0 then
        (t3, Outcome.raises ("git merge base error: " ++ r3.error))
      else
        let merge_base := r3.out
        if memcmp merge_base.id commit_id.id GIT_OID_RAWSZ = 0 then
          (t3, Outcome.returns [LuaValue.boolean false])
        else if memcmp merge_base.id master_id.id GIT_OID_RAWSZ = 0 then
          (t3 ++ [Event.lua_pushhex commit_id], pushhex_outcome char_signed commit_id)
        else
          let r4 := lib.git_annotated_commit_lookup commit_id
          let t4 := t3 ++ [Event.git_annotated_commit_lookup commit_id]
          if r4.code ≠ 0 then
            (t4, Outcome.raises ("git commit lookup error: " ++ r4.error))
          else
            let r5 := lib.git_merge commit_id
            let t5 := t4 ++ [Event.git_merge commit_id, Event.git_annotated_commit_free]
            if r5.code ≠ 0 then
              (t5, Outcome.raises ("git merge error: " ++ r5.error))
            else
              let t6 := t5 ++ [Event.git_repository_index, Event.git_index_has_conflicts,
                Event.git_index_free]
              if lib.git_index_has_conflicts ≠ 0 then
                (t6, Outcome.raises "git merge has conflicts")
              else
                (t6, Outcome.returns [LuaValue.boolean true])

/-! ### Names for the values `f_git_repo_merge` computes -/

/-- The id `commit_id` that `f_git_repo_merge` obtains for the target name. -/
def target_id (lib : GitRepo) (commit_name : String) : git_oid :=
  (git_get_id lib commit_name).2.out

/-- The id `master_id` that `f_git_repo_merge` obtains for `refs/heads/master`. -/
def tip_id (lib : GitRepo) : git_oid :=
  (git_get_id lib "refs/heads/master").2.out

/-- The id `merge_base` that `git_merge_base` stores for the tip and the target. -/
def merge_base_id (lib : GitRepo) (commit_name : String) : git_oid :=
  (lib.git_merge_base (tip_id lib) (target_id lib commit_name)).out

/-- Both name resolutions and the merge-base computation succeed. -/
def resolves (lib : GitRepo) (commit_name : String) : Prop :=
  (git_get_id lib commit_name).2.code = 0 ∧
  (git_get_id lib "refs/heads/master").2.code = 0 ∧
  (lib.git_merge_base (tip_id lib) (target_id lib commit_name)).code = 0

instance (lib : GitRepo) (commit_name : String) : Decidable (resolves lib commit_name) := by
  unfold resolves; exact inferInstance

/-- The calls made up to and including `git_merge_base`. -/
def resolution_events (lib : GitRepo) (commit_name : String) : List Event :=
  (git_get_id lib commit_name).1 ++ (git_get_id lib "refs/heads/master").1 ++
    [Event.git_merge_base (tip_id lib) (target_id lib commit_name)]

/-- Outcome AlreadyMerged: the call returns the one value `false` and neither
encodes an id nor looks up an annotated commit. -/
def already_merged (target : git_oid) (run : List Event × Outcome) : Prop :=
  run.2 = Outcome.returns [LuaValue.boolean false] ∧
  Event.lua_pushhex target ∉ run.1 ∧ Event.git_annotated_commit_lookup target ∉ run.1

/-- Outcome FastForward: the last call is `lua_pushhex` on the target id, its
one value is what the call returns, and no annotated commit is looked up. -/
def fast_forward (char_signed : Bool) (target : git_oid) (run : List Event × Outcome) : Prop :=
  Event.lua_pushhex target ∈ run.1 ∧ run.2 = pushhex_outcome char_signed target ∧
  Event.git_annotated_commit_lookup target ∉ run.1

/-- Outcome MergeRequired, as the code has it: the annotated commit of the
target is looked up (the step that precedes `git_merge`), and no id is encoded. -/
def merge_required (target : git_oid) (run : List Event × Outcome) : Prop :=
  Event.git_annotated_commit_lookup target ∈ run.1 ∧ Event.lua_pushhex target ∉ run.1

/-! ## The work functions of fetch and push -/

/-- The first character `buffer[0]` of a character array. -/
def first_char (buffer : List Char) : Char := buffer.getD 0 NUL

/-- The assignment `strncpy(operation->error, message, sizeof(operation->error))`. -/
def store_error (operation : operation_t) (message : String) : operation_t :=
  { operation with
    error := strncpy message 512
    error_size := by
      unfold strncpy
      rw [List.length_append, List.length_take, List.length_replicate]
      omega }

/-- The assignment `operation->complete = 1`. -/
def store_complete (operation : operation_t) : operation_t :=
  { operation with complete := 1 }

/-- A work function that has run to its `return`: the calls and stores it made,
the Operation as it leaves it, and the pointer value it returns (as an integer). -/
structure WorkerRun where
  events : List Event
  operation : operation_t
  result : Int
deriving DecidableEq

/-- The C function `git_remote_fetch_callback(void* data)`.  When `data` is the
address of a pointer variable, `(operation_t*)data` designates memory that
holds no `operation_t`, and the reads and writes through it are undefined
(`none`). -/
def git_remote_fetch_callback (lib : GitNet) (data : VoidPtr) : Option WorkerRun :=
  match data with
  | VoidPtr.pointer_variable => none
  | VoidPtr.operation operation =>
    if (lib.git_repository_open operation.path).code ≠ 0 then
      some
        { events := [Event.git_repository_open operation.path,
            Event.strncpy_error (lib.git_repository_open operation.path).error]
          operation := store_error operation (lib.git_repository_open operation.path).error
          result := -1 }
    else if (lib.git_remote_lookup operation.remote).code ≠ 0 then
      some
        { events := [Event.git_repository_open operation.path,
            Event.git_remote_lookup operation.remote,
            Event.strncpy_error (lib.git_remote_lookup operation.remote).error]
          operation := store_error operation (lib.git_remote_lookup operation.remote).error
          result := -1 }
    else
      let fetched := lib.git_remote_fetch operation.remote operation.username operation.password
      if fetched.code ≠ 0 then
        some
          { events := [Event.git_repository_open operation.path,
              Event.git_remote_lookup operation.remote,
              Event.git_remote_fetch operation.remote,
              Event.strncpy_error fetched.error,
              Event.set_complete, Event.git_remote_free, Event.git_repository_free]
            operation := store_complete (store_error operation fetched.error)
            result := fetched.code }
      else
        some
          { events := [Event.git_repository_open operation.path,
              Event.git_remote_lookup operation.remote,
              Event.git_remote_fetch operation.remote,
              Event.set_complete, Event.git_remote_free, Event.git_repository_free]
            operation := store_complete operation
            result := fetched.code }

/-- The C function `git_remote_push_callback(void* data)`.  The return codes of
`git_repository_open` and `git_remote_lookup` are not read.  When one of the
two fails, the handle it should have stored (`repository`, `remote`) is an
uninitialised local, and the calls that follow use it: C leaves that undefined
(`none`). -/
def git_remote_push_callback (lib : GitNet) (data : VoidPtr) : Option WorkerRun :=
  match data with
  | VoidPtr.pointer_variable => none
  | VoidPtr.operation operation =>
    if (lib.git_repository_open operation.path).code ≠ 0 then none
    else if (lib.git_remote_lookup operation.remote).code ≠ 0 then none
    else
      let pushed := lib.git_remote_push operation.remote operation.branch operation.username
        operation.password
      if pushed.code ≠ 0 then
        some
          { events := [Event.git_repository_open operation.path,
              Event.git_remote_lookup operation.remote,
              Event.git_remote_push operation.remote operation.branch,
              Event.strncpy_error pushed.error,
              Event.git_remote_free, Event.git_repository_free, Event.set_complete]
            operation := store_complete (store_error operation pushed.error)
            result := pushed.code }
      else
        some
          { events := [Event.git_repository_open operation.path,
              Event.git_remote_lookup operation.remote,
              Event.git_remote_push operation.remote operation.branch,
              Event.git_remote_free, Event.git_repository_free, Event.set_complete]
            operation := store_complete operation
            result := pushed.code }

/-! ## The Lua entry points of fetch and push -/

/-- The literal `0.05` of `lua_pushnumber(L, 0.05)`. -/
def poll_delay : LuaNumber := ⟨5, -2⟩

/-- The call `luaL_error(L, "git remote operation error: %s", operation->error)`. -/
def raise_operation_error (operation : operation_t) : Outcome :=
  match c_string operation.error with
  | some message => Outcome.raises ("git remote operation error: " ++ message)
  | none => Outcome.undefined

/-- The continuation `f_git_remote_operationk(L, status, ctx)`, where the
registry slot `ctx` refers to the userdata `operation`. -/
def f_git_remote_operationk (operation : operation_t) (ctx : Int) : List Event × Outcome :=
  if operation.complete ≠ 0 then
    ([Event.luaL_unref ctx, Event.close_thread operation.thread],
      if first_char operation.error ≠ NUL then raise_operation_error operation
      else Outcome.returns [])
  else
    ([], Outcome.yields [LuaValue.number poll_delay] ctx KFunction.f_git_remote_operationk)

/-- What the Lua arguments of fetch and push provide once they have passed the
argument checks: the credentials of the repository table, the path of the
repository, the name of the remote and (push only) the branch. -/
structure RemoteArgs where
  username : String
  password : String
  path : String
  remote : String
  branch : String

/-- The fields `f_git_remote_fetch` stores into the fresh userdata. -/
def fetch_operation (args : RemoteArgs) (fresh : operation_t) : operation_t :=
  { fresh with
    username := args.username
    password := args.password
    path := args.path
    complete := 0
    error := fresh.error.set 0 NUL
    error_size := by rw [List.length_set]; exact fresh.error_size
    remote := args.remote }

/-- The fields `f_git_remote_push` stores into the fresh userdata. -/
def push_operation (args : RemoteArgs) (fresh : operation_t) : operation_t :=
  { fetch_operation args fresh with branch := args.branch }

/-- The Lua C function `f_git_remote_fetch`.  `is_main` is the result of
`lua_ismainthread`, `fresh` the contents of the new userdata before any field
is assigned, `thread` the handle `create_thread` returns (stored in
`operation->thread`) and `r` the reference `luaL_ref` returns for the userdata.
On the main thread the work function is called as
`git_remote_fetch_callback(&operation)`, with the address of the pointer
variable as argument. -/
def f_git_remote_fetch (lib : GitNet) (is_main : Bool) (args : RemoteArgs)
    (fresh : operation_t) (thread : Nat) (r : Int) : List Event × Outcome :=
  let operation := fetch_operation args fresh
  if is_main = false then
    ([Event.create_thread WorkerFn.git_remote_fetch_callback (VoidPtr.operation operation),
        Event.luaL_ref r (VoidPtr.operation { operation with thread := thread })],
      Outcome.yields [LuaValue.number poll_delay] r KFunction.f_git_remote_operationk)
  else
    match git_remote_fetch_callback lib VoidPtr.pointer_variable with
    | none => ([], Outcome.undefined)
    | some run =>
      if run.result ≠ 0 then (run.events, raise_operation_error operation)
      else (run.events, Outcome.returns [])

/-- The Lua C function `f_git_remote_push`; as `f_git_remote_fetch`, with the
branch stored as well and `git_remote_push_callback` as work function. -/
def f_git_remote_push (lib : GitNet) (is_main : Bool) (args : RemoteArgs)
    (fresh : operation_t) (thread : Nat) (r : Int) : List Event × Outcome :=
  let operation := push_operation args fresh
  if is_main = false then
    ([Event.create_thread WorkerFn.git_remote_push_callback (VoidPtr.operation operation),
        Event.luaL_ref r (VoidPtr.operation { operation with thread := thread })],
      Outcome.yields [LuaValue.number poll_delay] r KFunction.f_git_remote_operationk)
  else
    match git_remote_push_callback lib VoidPtr.pointer_variable with
    | none => ([], Outcome.undefined)
    | some run =>
      if run.result ≠ 0 then (run.events, raise_operation_error operation)
      else (run.events, Outcome.returns [])

/-! ## `git_retrieve_commit`, `f_git_repo_create_load_branch`, `f_git_repo_reset` -/

/-- The Lua API function `luaL_checkstring` on an argument that is a string: the
C string it hands out.  A Lua string may hold NUL bytes; read as a C string it
ends before the first of them. -/
def luaL_checkstring (lua_string : String) : String :=
  String.mk (lua_string.data.takeWhile (fun c => c ≠ NUL))

/-- The C function `strcmp` on the characters of two C strings; a string that
has ended is compared by its terminator, whose value is 0. -/
def strcmp_chars : List Char → List Char → Int
  | [], [] => 0
  | [], d :: _ => 0 - (d.toNat : Int)
  | c :: _, [] => (c.toNat : Int) - 0
  | c :: cs, d :: ds => if c = d then strcmp_chars cs ds else (c.toNat : Int) - (d.toNat : Int)

/-- The C function `strcmp`. -/
def strcmp (a b : String) : Int := strcmp_chars a.data b.data

/-- The C function `git_retrieve_commit`: the calls it makes, and the commit it
returns (named by its id) or the message of the `luaL_error` it leaves by. -/
def git_retrieve_commit (lib : GitRefs) (commit_name : String) :
    List Event × Except String git_oid :=
  let resolved := git_get_id lib.toGitRepo commit_name
  if resolved.2.code ≠ 0 then
    (resolved.1, Except.error ("git reference lookup error: " ++ resolved.2.error))
  else
    let commit_id := resolved.2.out
    let looked := lib.git_commit_lookup commit_id
    if looked.code ≠ 0 then
      (resolved.1 ++ [Event.git_commit_lookup commit_id],
        Except.error ("git commit lookup error: " ++ looked.error))
    else
      (resolved.1 ++ [Event.git_commit_lookup commit_id], Except.ok commit_id)

/-- The end of `f_git_repo_create_load_branch`: `git_reference_free(reference)`
and `return 1` with the boolean that was pushed.  Freeing a pointer that was
never set is undefined; freeing the null pointer does nothing. -/
def free_reference_and_return (reference : RefPtr) (pushed : Bool) : Outcome :=
  if reference = RefPtr.unset then Outcome.undefined
  else Outcome.returns [LuaValue.boolean pushed]

/-- The Lua C function `f_git_repo_create_load_branch`, entered with a valid
repository handle and two string arguments. -/
def f_git_repo_create_load_branch (codes : BranchCodes) (lib : GitRefs)
    (branch_name_arg commit_name_arg : String) : List Event × Outcome :=
  let branch_name := luaL_checkstring branch_name_arg
  let commit_name := luaL_checkstring commit_name_arg
  let looked := lib.git_branch_lookup branch_name
  if looked.code = codes.GIT_EINVALIDSPEC then
    ([Event.git_branch_lookup branch_name],
      Outcome.raises ("git branch lookup error: " ++ looked.error))
  else if looked.code = codes.GIT_ENOTFOUND then
    match git_retrieve_commit lib commit_name with
    | (events, Except.error message) =>
      (Event.git_branch_lookup branch_name :: events, Outcome.raises message)
    | (events, Except.ok commit) =>
      let created := lib.git_branch_create branch_name commit
      if created.code ≠ 0 then
        (Event.git_branch_lookup branch_name :: events ++
            [Event.git_branch_create branch_name commit, Event.git_commit_free],
          Outcome.raises ("git branch create error: " ++ created.error))
      else
        (Event.git_branch_lookup branch_name :: events ++
            [Event.git_branch_create branch_name commit, Event.git_commit_free,
              Event.git_reference_free created.out],
          free_reference_and_return created.out true)
  else
    ([Event.git_branch_lookup branch_name, Event.git_reference_free looked.out],
      free_reference_and_return looked.out false)

/-- The reset kind `f_git_repo_reset` selects for the C string `type`. -/
def reset_type_of (type : String) : git_reset_t :=
  if strcmp type "mixed" = 0 then git_reset_t.GIT_RESET_MIXED
  else if strcmp type "hard" = 0 then git_reset_t.GIT_RESET_HARD
  else git_reset_t.GIT_RESET_SOFT

/-- The Lua C function `f_git_repo_reset`, entered with a valid repository
handle and two string arguments. -/
def f_git_repo_reset (lib : GitRefs) (commit_name_arg type_arg : String) :
    List Event × Outcome :=
  let commit_name := luaL_checkstring commit_name_arg
  let type := luaL_checkstring type_arg
  match git_retrieve_commit lib commit_name with
  | (events, Except.error message) => (events, Outcome.raises message)
  | (events, Except.ok commit) =>
    let reset_type := reset_type_of type
    let result := lib.git_reset commit reset_type
    if result.code ≠ 0 then
      (events ++ [Event.git_reset commit reset_type, Event.git_commit_free],
        Outcome.raises ("git reset error: " ++ result.error))
    else
      (events ++ [Event.git_reset commit reset_type, Event.git_commit_free],
        Outcome.returns [])

/-! ## Concrete inputs used by the example statements -/

/-- The id whose 20 bytes all equal `b`. -/
def oid_of_byte (b : Fin 256) : git_oid := ⟨List.replicate 20 b, by simp [GIT_OID_RAWSZ]⟩

/-- A library answer reporting success. -/
def ok {α : Type} (value : α) : Ret α := ⟨0, value, ""⟩

/-- A library answer reporting failure with the given message. -/
def failed {α : Type} (value : α) (message : String) : Ret α := ⟨-1, value, message⟩

/-- A repository in which `refs/heads/master` is at id `tip`, every other name
resolves to id `target`, the merge base of any two commits is `base`, and the
annotated-commit lookup, the merge and the conflict check answer as given. -/
def repo_with (target tip base : git_oid) (lookup merge : Ret Unit) (conflicts : Int) :
    GitRepo where
  git_oid_fromstr := fun _ => ok target
  git_reference_name_to_id := fun name => if name = "refs/heads/master" then ok tip else ok target
  git_merge_base := fun _ _ => ok base
  git_annotated_commit_lookup := fun _ => lookup
  git_merge := fun _ => merge
  git_index_has_conflicts := conflicts

/-- A repository whose tip (id 02..02) is the merge base of itself and the
target (id 01..01). -/
def sample_repo : GitRepo :=
  repo_with (oid_of_byte 1) (oid_of_byte 2) (oid_of_byte 2) (ok ()) (ok ()) 0

/-- A name of 40 hexadecimal digits. -/
def hex_name : String := "0123456789abcdefABCDEF0123456789abcdef01"

/-- A name of `2 ^ 32 + 40` characters, all of them the digit `0`. -/
def long_hex_name : String := String.mk (List.replicate (2 ^ 32 + 40) '0')

/-- A repository in which the target `topic` (id 01..01) and the tip (id 02..02)
have diverged from the merge base (id 03..03) and the annotated-commit lookup
fails. -/
def repo_lookup_fails : GitRepo :=
  repo_with (oid_of_byte 1) (oid_of_byte 2) (oid_of_byte 3) (failed () "object not found")
    (ok ()) 0

/-- A repository in which the target name resolves to the tip itself. -/
def repo_at_tip : GitRepo :=
  repo_with (oid_of_byte 2) (oid_of_byte 2) (oid_of_byte 2) (ok ()) (ok ()) 0

/-- The 20-byte id `4b825dc642cb6eb9a060e54bf8d69288fbee4904`; its second byte,
0x82, is the first of several that are 0x80 or more. -/
def sample_oid : git_oid :=
  ⟨[0x4b, 0x82, 0x5d, 0xc6, 0x42, 0xcb, 0x6e, 0xb9, 0xa0, 0x60, 0xe5, 0x4b, 0xf8, 0xd6, 0x92,
    0x88, 0xfb, 0xee, 0x49, 0x04], by decide⟩

/-- A repository in which the tip (id 02..02) is the merge base of itself and
the target `topic`, whose id is `sample_oid`: a fast-forward. -/
def repo_fast_forward : GitRepo :=
  repo_with sample_oid (oid_of_byte 2) (oid_of_byte 2) (ok ()) (ok ()) 0

/-- An Operation as `f_git_remote_fetch` submits it: completion flag 0 and an
empty error buffer. -/
def sample_operation : operation_t where
  username := "user"
  password := "secret"
  path := "/repo/.git/"
  remote := "origin"
  branch := "refs/heads/master"
  thread := 7
  complete := 0
  error := List.replicate 512 NUL
  error_size := List.length_replicate _ _

/-- A library for which opening the repository fails. -/
def net_open_fails : GitNet where
  git_repository_open := fun _ => failed () "could not find repository"
  git_remote_lookup := fun _ => ok ()
  git_remote_fetch := fun _ _ _ => ok ()
  git_remote_push := fun _ _ _ _ => ok ()

/-- A library for which every call succeeds. -/
def net_ok : GitNet where
  git_repository_open := fun _ => ok ()
  git_remote_lookup := fun _ => ok ()
  git_remote_fetch := fun _ _ _ => ok ()
  git_remote_push := fun _ _ _ _ => ok ()

/-- A completed Operation whose error buffer holds the message `denied`. -/
def failed_operation : operation_t :=
  store_complete (store_error sample_operation "denied")

/-- A completed Operation whose error buffer is filled by 512 characters `x`
without a terminator: what `strncpy` leaves for a library message of 512 or
more characters. -/
def unterminated_operation : operation_t :=
  store_complete (store_error sample_operation (String.mk (List.replicate 600 'x')))

/-- A library whose fetch fails with a message of 600 characters. -/
def net_long_error : GitNet where
  git_repository_open := fun _ => ok ()
  git_remote_lookup := fun _ => ok ()
  git_remote_fetch := fun _ _ _ => failed () (String.mk (List.replicate 600 'x'))
  git_remote_push := fun _ _ _ _ => ok ()

/-- The values libgit2 gives the two codes: `GIT_EINVALIDSPEC` = -12 and
`GIT_ENOTFOUND` = -3. -/
def libgit2_codes : BranchCodes := ⟨-12, -3⟩

/-- A library over `sample_repo` in which every commit is found, and the branch
lookup, the branch creation and the reset answer as given. -/
def refs_with (lookup create : Ret RefPtr) (reset : Ret Unit) : GitRefs where
  toGitRepo := sample_repo
  git_commit_lookup := fun _ => ok ()
  git_branch_lookup := fun _ => lookup
  git_branch_create := fun _ _ => create
  git_reset := fun _ _ => reset

/-- The branch lookup fails with the generic code -1 (`GIT_ERROR`) and clears
`reference`, as libgit2 does on failure. -/
def refs_lookup_error : GitRefs :=
  refs_with ⟨-1, RefPtr.null, "failed to read the reference"⟩ (ok RefPtr.object) (ok ())

/-- The same failing lookup in a library that does not touch `reference`. -/
def refs_lookup_error_unset : GitRefs :=
  refs_with ⟨-1, RefPtr.unset, "failed to read the reference"⟩ (ok RefPtr.object) (ok ())

/-- The branch does not exist (-3) and can be created. -/
def refs_branch_missing : GitRefs :=
  refs_with ⟨-3, RefPtr.null, "branch not found"⟩ (ok RefPtr.object) (ok ())

/-- A library in which the reset fails. -/
def refs_reset_fails : GitRefs :=
  refs_with (ok RefPtr.object) (ok RefPtr.object) (failed () "cannot reset")

/-- A Lua string of ten bytes: `mixed`, a NUL byte, `junk`. -/
def mixed_nul_junk : String := String.mk ("mixed".data ++ NUL :: "junk".data)

/-- A library in which the commit is found and the reset succeeds. -/
def refs_ok : GitRefs :=
  refs_with (ok RefPtr.object) (ok RefPtr.object) (ok ())

/-! ## Lemmas on `git_get_id` -/

/-- Below `2^32` the `int` made from a length is 40 only for the length 40. -/
theorem size_to_int_eq_forty_iff (n : Nat) (h : n < 2 ^ 32) : size_to_int n = 40 ↔ n = 40 := by
  unfold size_to_int
  have h1 : n % 2 ^ 32 = n := Nat.mod_eq_of_lt h
  rw [h1]
  split <;> omega

theorem isxdigit_ne_zero_iff (c : Char) : isxdigit c ≠ 0 ↔ is_hex_digit c := by
  unfold isxdigit is_hex_digit hex_digit_chars
  constructor
  · intro h
    split at h
    · rename_i hr
      have hc : c = Char.ofNat c.toNat := (Char.ofNat_toNat c).symm
      have hb : c.toNat ≤ 102 := by omega
      generalize c.toNat = n at hr hc hb
      subst hc
      interval_cases n <;> first | (exfalso; omega) | decide
    · exact absurd rfl h
  · intro h
    simp only [List.mem_cons, List.mem_singleton] at h
    rcases h with h | h | h | h | h | h | h | h | h | h | h | h | h | h | h | h | h | h | h | h |
      h | h | h <;> first | (subst h; decide) | (simp at h)

/-- Running the loop with more fuel than the iterations left changes nothing:
the loop of `git_get_id` always terminates within `length - i` iterations. -/
theorem is_hex_loop_fuel (name : String) (length : Int) (fuel i : Nat) (h : Int)
    (hf : length.toNat ≤ i + fuel) (extra : Nat) :
    is_hex_loop name length (fuel + extra) i h = is_hex_loop name length fuel i h := by
  induction fuel generalizing i h with
  | zero =>
    cases extra with
    | zero => rfl
    | succ e =>
      simp only [Nat.zero_add, is_hex_loop]
      rw [if_neg]
      intro hc
      omega
  | succ f ih =>
    have e : f + 1 + extra = (f + extra) + 1 := by omega
    rw [e]
    simp only [is_hex_loop]
    split
    · exact ih (i + 1) _ (by omega)
    · rfl

theorem is_hex_loop_spec (name : String) (L : Nat) (fuel i : Nat) (h : Int)
    (hL : i + fuel = L) :
    is_hex_loop name (L : Int) fuel i h ≠ 0 ↔
      h ≠ 0 ∧ ∀ j, i ≤ j → j < L → isxdigit (char_at name j) ≠ 0 := by
  induction fuel generalizing i h with
  | zero =>
    simp only [is_hex_loop]
    constructor
    · intro h0
      exact ⟨h0, fun j h1 h2 => by omega⟩
    · exact fun h0 => h0.1
  | succ f ih =>
    simp only [is_hex_loop]
    split
    · rename_i hc
      rw [ih (i + 1) _ (by omega)]
      constructor
      · rintro ⟨h1, h2⟩
        refine ⟨hc.1, fun j hj hjL => ?_⟩
        rcases Nat.eq_or_lt_of_le hj with e | l
        · subst e; exact h1
        · exact h2 j l hjL
      · rintro ⟨_, h2⟩
        exact ⟨h2 i le_rfl (by omega), fun j hj hjL => h2 j (by omega) hjL⟩
    · rename_i hc
      constructor
      · intro h0
        exact absurd ⟨h0, by omega⟩ hc
      · exact fun h0 => h0.1

theorem git_get_id_is_hex_ne_zero_iff (name : String) :
    git_get_id_is_hex name ≠ 0 ↔
      size_to_int (strlen name) = 40 ∧ ∀ j, j < 40 → is_hex_digit (char_at name j) := by
  unfold git_get_id_is_hex
  simp only
  by_cases h40 : size_to_int (strlen name) = 40
  · rw [h40]
    have hs := is_hex_loop_spec name 40 40 0 1 (by norm_num)
    have e : Int.toNat 40 = 40 := rfl
    simp only [Nat.cast_ofNat] at hs
    rw [e, if_pos rfl, hs]
    constructor
    · rintro ⟨_, h⟩
      exact ⟨rfl, fun j hj => (isxdigit_ne_zero_iff _).mp (h j (Nat.zero_le _) hj)⟩
    · rintro ⟨_, h⟩
      exact ⟨one_ne_zero, fun j _ hj => (isxdigit_ne_zero_iff _).mpr (h j hj)⟩
  · rw [if_neg h40]
    have hz : is_hex_loop name (size_to_int (strlen name)) (size_to_int (strlen name)).toNat
        0 0 = 0 := by
      cases (size_to_int (strlen name)).toNat <;> simp [is_hex_loop]
    rw [hz]
    constructor
    · intro h; exact absurd rfl h
    · intro h; exact absurd h.1 h40

/-- What decides `git_get_id`: the literal-id parser is used exactly when the
`int` that holds the length is 40 and the first 40 characters are hex digits. -/
theorem git_get_id_literal_iff (lib : GitRepo) (name : String) :
    git_get_id lib name = ([Event.git_oid_fromstr name], lib.git_oid_fromstr name) ↔
      size_to_int (strlen name) = 40 ∧ ∀ j, j < 40 → is_hex_digit (char_at name j) := by
  rw [← git_get_id_is_hex_ne_zero_iff]
  unfold git_get_id
  by_cases hz : git_get_id_is_hex name = 0
  · rw [if_pos hz]
    constructor
    · intro h; simp at h
    · intro h; exact absurd hz h
  · rw [if_neg hz]
    exact ⟨fun _ => hz, fun _ => rfl⟩

/-- Reference lookup is the path taken in every other case. -/
theorem git_get_id_reference_iff (lib : GitRepo) (name : String) :
    git_get_id lib name =
        ([Event.git_reference_name_to_id name], lib.git_reference_name_to_id name) ↔
      ¬ (size_to_int (strlen name) = 40 ∧ ∀ j, j < 40 → is_hex_digit (char_at name j)) := by
  rw [← git_get_id_is_hex_ne_zero_iff]
  unfold git_get_id
  by_cases hz : git_get_id_is_hex name = 0
  · rw [if_pos hz]
    exact ⟨fun _ h => h hz, fun _ => rfl⟩
  · rw [if_neg hz]
    constructor
    · intro h; simp at h
    · intro h; exact absurd hz h

theorem forall_char_at_iff (name : String) (P : Char → Prop) (h : strlen name = 40) :
    (∀ j, j < 40 → P (char_at name j)) ↔ ∀ c ∈ name.data, P c := by
  unfold strlen at h
  unfold char_at
  constructor
  · intro hj c hc
    obtain ⟨n, hn, rfl⟩ := List.mem_iff_getElem.mp hc
    have := hj n (by omega)
    rwa [List.getD_eq_getElem _ _ hn] at this
  · intro hc j hj
    have hn : j < name.data.length := by omega
    rw [List.getD_eq_getElem _ _ hn]
    exact hc _ (List.getElem_mem hn)

theorem literal_condition_of_fits (name : String) (hfit : strlen name < 2 ^ 32) :
    (size_to_int (strlen name) = 40 ∧ ∀ j, j < 40 → is_hex_digit (char_at name j)) ↔
      (strlen name = 40 ∧ ∀ c ∈ name.data, is_hex_digit c) := by
  rw [size_to_int_eq_forty_iff _ hfit]
  constructor
  · rintro ⟨h, hj⟩
    exact ⟨h, (forall_char_at_iff name _ h).mp hj⟩
  · rintro ⟨h, hc⟩
    exact ⟨h, (forall_char_at_iff name _ h).mpr hc⟩

theorem strlen_long_hex_name : strlen long_hex_name = 2 ^ 32 + 40 := by
  unfold strlen long_hex_name
  exact List.length_replicate _ _

theorem char_at_long_hex_name (j : Nat) (hj : j < 40) : char_at long_hex_name j = '0' := by
  unfold char_at long_hex_name
  have hn : j < (List.replicate (2 ^ 32 + 40) '0').length := by
    rw [List.length_replicate]
    omega
  rw [List.getD_eq_getElem _ _ hn]
  exact List.getElem_replicate _ _

/-- Name resolution for every name string shorter than 2^32 bytes: `git_get_id`
makes exactly one library call, and that call is the literal-id parser
`git_oid_fromstr` if and only if the name has length exactly 40 and every
character is a hexadecimal digit; in every other case the call is the
reference lookup `git_reference_name_to_id`. -/
theorem git_get_id_literal_iff_forty_hex (lib : GitRepo) (name : String)
    (hfit : strlen name < 2 ^ 32) :
    (git_get_id lib name = ([Event.git_oid_fromstr name], lib.git_oid_fromstr name) ↔
      (strlen name = 40 ∧ ∀ c ∈ name.data, is_hex_digit c)) ∧
    (git_get_id lib name =
        ([Event.git_reference_name_to_id name], lib.git_reference_name_to_id name) ↔
      ¬ (strlen name = 40 ∧ ∀ c ∈ name.data, is_hex_digit c)) := by
  rw [git_get_id_literal_iff, git_get_id_reference_iff, literal_condition_of_fits name hfit]
  exact ⟨Iff.rfl, Iff.rfl⟩

/-- An instance: the 40-digit name `hex_name` is shorter than 2^32 bytes, and
for it the two equivalences hold. -/
theorem git_get_id_literal_iff_forty_hex_witness :
    strlen hex_name < 2 ^ 32 ∧
    ((git_get_id sample_repo hex_name =
        ([Event.git_oid_fromstr hex_name], sample_repo.git_oid_fromstr hex_name) ↔
      (strlen hex_name = 40 ∧ ∀ c ∈ hex_name.data, is_hex_digit c)) ∧
    (git_get_id sample_repo hex_name =
        ([Event.git_reference_name_to_id hex_name],
          sample_repo.git_reference_name_to_id hex_name) ↔
      ¬ (strlen hex_name = 40 ∧ ∀ c ∈ hex_name.data, is_hex_digit c))) :=
  ⟨by decide, git_get_id_literal_iff_forty_hex sample_repo hex_name (by decide)⟩

/-- C1, the code at the failing input: the name `long_hex_name` has `2^32 + 40`
characters, not 40, yet `git_get_id` resolves it with the literal-id parser and
makes no reference lookup, because `int length = strlen(name)` holds 40 for it. -/
theorem git_get_id_long_name_literal :
    strlen long_hex_name = 2 ^ 32 + 40 ∧
    strlen long_hex_name ≠ 40 ∧
    git_get_id sample_repo long_hex_name =
      ([Event.git_oid_fromstr long_hex_name], sample_repo.git_oid_fromstr long_hex_name) ∧
    git_get_id sample_repo long_hex_name ≠
      ([Event.git_reference_name_to_id long_hex_name],
        sample_repo.git_reference_name_to_id long_hex_name) := by
  have hlit : git_get_id sample_repo long_hex_name =
      ([Event.git_oid_fromstr long_hex_name], sample_repo.git_oid_fromstr long_hex_name) := by
    rw [git_get_id_literal_iff, strlen_long_hex_name]
    refine ⟨by decide, fun j hj => ?_⟩
    rw [char_at_long_hex_name j hj]
    decide
  refine ⟨strlen_long_hex_name, ?_, hlit, ?_⟩
  · rw [strlen_long_hex_name]
    decide
  · rw [hlit]
    intro h
    have h1 := congrArg Prod.fst h
    simp at h1

/-! ## Lemmas on `lua_pushhex` -/

set_option maxRecDepth 100000 in
/-- The low nibble is read correctly on every platform: `hex[i] & 0xF` is the
low four bits also when `hex[i]` is negative. -/
theorem low_nibble_digit : ∀ (s : Bool) (b : Fin 256),
    literal_at hexDigits (int_and (char_value s b) 0xF) = some (hex_digit (b.val % 16)) := by
  decide

set_option maxRecDepth 100000 in
/-- The high nibble is read correctly when `hex[i]` is not negative. -/
theorem high_nibble_digit : ∀ (s : Bool) (b : Fin 256), (s = false ∨ b.val < 128) →
    literal_at hexDigits (char_value s b >>> 4) = some (hex_digit (b.val / 16)) := by
  decide

set_option maxRecDepth 100000 in
/-- On a platform with signed `char`, a byte of 0x80 or more indexes `hexDigits`
with a negative number. -/
theorem high_nibble_negative : ∀ (b : Fin 256), 128 ≤ b.val →
    literal_at hexDigits (char_value true b >>> 4) = none := by
  decide

theorem hex_encode_append (a b : List (Fin 256)) :
    hex_encode (a ++ b) = hex_encode a ++ hex_encode b := by
  induction a with
  | nil => rfl
  | cons x xs ih => simp [hex_encode, ih]

theorem hex_encode_length (a : List (Fin 256)) : (hex_encode a).length = 2 * a.length := by
  induction a with
  | nil => rfl
  | cons x xs ih => simp [hex_encode, ih]; omega

theorem stored_chars_map_some (cs : List Char) : stored_chars (cs.map some) = some cs := by
  induction cs with
  | nil => rfl
  | cons c rest ih => simp [stored_chars, ih]

/-- Two stores at the first free cells of the buffer. -/
theorem set_two_cells (pre : List Char) (k : Nat) (hi lo : Char) (i : Nat)
    (hpre : pre.length = i * 2) :
    ((pre.map some ++ List.replicate (k + 2) none).set (i * 2) (some hi)).set (i * 2 + 1)
        (some lo) =
      (pre ++ [hi, lo]).map some ++ List.replicate k none := by
  have h1 : (pre.map some).length ≤ i * 2 := by simp [hpre]
  rw [List.set_append_right _ _ h1]
  have h2 : (pre.map some).length ≤ i * 2 + 1 := by simp [hpre]
  rw [List.set_append_right _ _ h2]
  have e1 : i * 2 - (pre.map some).length = 0 := by simp [hpre]
  have e2 : i * 2 + 1 - (pre.map some).length = 1 := by simp [hpre]
  rw [e1, e2]
  simp [List.replicate_succ]

/-- The loop of `lua_pushhex` fills the buffer with the hexadecimal encoding, as
long as no byte reads as a negative `char`; the fuel `sizeof(buffer)/2` is
enough for every input of at most 512 bytes. -/
theorem lua_pushhex_loop_encodes (s : Bool) (hex : List (Fin 256))
    (hlen : hex.length ≤ 512) (hb : s = false ∨ ∀ b ∈ hex, b.val < 128)
    (fuel i : Nat) (hi : i ≤ hex.length) (hfuel : hex.length - i ≤ fuel) :
    lua_pushhex_loop s hex hex.length fuel i
        ((hex_encode (hex.take i)).map some ++ List.replicate (1024 - i * 2) none) =
      some ((hex_encode hex).map some ++ List.replicate (1024 - hex.length * 2) none) := by
  induction fuel generalizing i with
  | zero =>
    have e : i = hex.length := by omega
    subst e
    simp [lua_pushhex_loop]
  | succ f ih =>
    rcases Nat.eq_or_lt_of_le hi with e | hlt
    · subst e
      simp [lua_pushhex_loop]
    · have hc : i < hex.length ∧ i < 1024 / 2 := ⟨hlt, by omega⟩
      have hget : hex.get? i = some hex[i] := by
        rw [List.get?_eq_getElem?, List.getElem?_eq_getElem hlt]
      have hhigh := high_nibble_digit s hex[i]
        (hb.imp id (fun h => h _ (List.getElem_mem hlt)))
      have hlow := low_nibble_digit s hex[i]
      have hk : 1024 - i * 2 = (1024 - (i + 1) * 2) + 2 := by omega
      have hpre : (hex_encode (hex.take i)).length = i * 2 := by
        rw [hex_encode_length, List.length_take]
        omega
      have htake : hex_encode (hex.take (i + 1)) =
          hex_encode (hex.take i) ++
            [hex_digit (hex[i].val / 16), hex_digit (hex[i].val % 16)] := by
        rw [List.take_succ, List.getElem?_eq_getElem hlt, hex_encode_append]
        rfl
      simp only [lua_pushhex_loop]
      rw [if_pos hc, hget]
      simp only [hhigh, hlow]
      rw [hk, set_two_cells _ _ _ _ _ hpre, ← htake]
      exact ih (i + 1) hlt (by omega)

/-- What `lua_pushhex` does when no byte reads as a negative `char` (the
platform has unsigned `char`, or every byte is below 0x80) and the id has at
most 512 bytes: it pushes the lowercase hexadecimal encoding. -/
theorem lua_pushhex_eq_hex_encode (s : Bool) (hex : List (Fin 256))
    (hlen : hex.length ≤ 512) (hb : s = false ∨ ∀ b ∈ hex, b.val < 128) :
    lua_pushhex s hex hex.length = some (String.mk (hex_encode hex)) := by
  unfold lua_pushhex
  have h := lua_pushhex_loop_encodes s hex hlen hb (1024 / 2) 0 (Nat.zero_le _) (by omega)
  simp only [List.take_zero, hex_encode, List.map_nil, List.nil_append, Nat.zero_mul,
    Nat.sub_zero] at h
  rw [h]
  simp only [lua_pushlstring]
  have hl : ((hex_encode hex).map some).length = hex.length * 2 := by
    rw [List.length_map, hex_encode_length]; omega
  rw [if_pos (by rw [List.length_append, hl]; omega), List.take_left' hl,
    stored_chars_map_some]
  rfl

set_option maxRecDepth 100000 in
theorem hex_value_hex_digit : ∀ b : Fin 256,
    hex_value (hex_digit (b.val / 16)) = some (b.val / 16) ∧
    hex_value (hex_digit (b.val % 16)) = some (b.val % 16) := by
  decide

/-- Decoding the hexadecimal encoding gives the bytes back. -/
theorem hex_decode_hex_encode (bytes : List (Fin 256)) :
    hex_decode (hex_encode bytes) = some bytes := by
  induction bytes with
  | nil => rfl
  | cons b rest ih =>
    simp only [hex_encode, hex_decode, (hex_value_hex_digit b).1, (hex_value_hex_digit b).2, ih]
    congr 2
    apply Fin.ext
    simp only [Fin.ofNat, Fin.val_mk]
    have := b.isLt
    omega

set_option maxRecDepth 100000 in
/-- Every character of the encoding is one of `0123456789abcdef`. -/
theorem hex_digit_mem : ∀ b : Fin 256,
    hex_digit (b.val / 16) ∈ hexDigits.data ∧ hex_digit (b.val % 16) ∈ hexDigits.data := by
  decide

/-! ## Lemmas on `f_git_repo_merge` -/

theorem memcmp_eq_zero_iff (a b : List (Fin 256)) (n : Nat) (ha : a.length = n)
    (hb : b.length = n) : memcmp a b n = 0 ↔ a = b := by
  induction a generalizing b n with
  | nil =>
    cases b with
    | nil => simp [memcmp]
    | cons y ys => simp at ha; subst ha; simp at hb
  | cons x xs ih =>
    cases b with
    | nil => simp at hb; subst hb; simp at ha
    | cons y ys =>
      cases n with
      | zero => simp at ha
      | succ m =>
        simp only [List.length_cons, Nat.add_right_cancel_iff] at ha hb
        simp only [memcmp]
        by_cases hxy : x = y
        · subst hxy
          rw [if_pos rfl, ih ys m ha hb]
          simp
        · rw [if_neg hxy]
          have hv : x.val ≠ y.val := fun h => hxy (Fin.ext h)
          constructor
          · intro h; exfalso; omega
          · intro h; exact absurd (List.cons.inj h).1 hxy

/-- `memcmp` over `sizeof(id)` bytes is 0 exactly for equal ids. -/
theorem memcmp_oid (x y : git_oid) : memcmp x.id y.id GIT_OID_RAWSZ = 0 ↔ x = y := by
  rw [memcmp_eq_zero_iff _ _ _ x.size y.size]
  constructor
  · intro h
    cases x; cases y
    simp only at h
    subst h
    rfl
  · intro h; rw [h]

theorem git_get_id_events (lib : GitRepo) (name : String) :
    (git_get_id lib name).1 = [Event.git_oid_fromstr name] ∨
    (git_get_id lib name).1 = [Event.git_reference_name_to_id name] := by
  unfold git_get_id
  by_cases hz : git_get_id_is_hex name = 0
  · rw [if_pos hz]; exact Or.inr rfl
  · rw [if_neg hz]; exact Or.inl rfl

/-- The calls up to `git_merge_base` contain no id encoding, no annotated-commit
lookup and no merge. -/
theorem resolution_events_plain (lib : GitRepo) (name : String) (id : git_oid) :
    Event.lua_pushhex id ∉ resolution_events lib name ∧
    Event.git_annotated_commit_lookup id ∉ resolution_events lib name ∧
    Event.git_merge id ∉ resolution_events lib name := by
  unfold resolution_events
  rcases git_get_id_events lib name with h1 | h1 <;>
    rcases git_get_id_events lib "refs/heads/master" with h2 | h2 <;>
    rw [h1, h2] <;> simp

theorem merge_target_unresolved (s : Bool) (lib : GitRepo) (name : String)
    (h : (git_get_id lib name).2.code ≠ 0) :
    f_git_repo_merge s lib name =
      ((git_get_id lib name).1,
        Outcome.raises ("git reference lookup error: " ++ (git_get_id lib name).2.error)) := by
  unfold f_git_repo_merge
  simp only
  rw [if_pos h]

theorem merge_tip_unresolved (s : Bool) (lib : GitRepo) (name : String)
    (h1 : (git_get_id lib name).2.code = 0)
    (h2 : (git_get_id lib "refs/heads/master").2.code ≠ 0) :
    f_git_repo_merge s lib name =
      ((git_get_id lib name).1 ++ (git_get_id lib "refs/heads/master").1,
        Outcome.raises ("git reference lookup error: " ++
          (git_get_id lib "refs/heads/master").2.error)) := by
  unfold f_git_repo_merge
  simp only
  rw [if_neg (not_not.mpr h1), if_pos h2]

theorem merge_base_failed (s : Bool) (lib : GitRepo) (name : String)
    (h1 : (git_get_id lib name).2.code = 0)
    (h2 : (git_get_id lib "refs/heads/master").2.code = 0)
    (h3 : (lib.git_merge_base (tip_id lib) (target_id lib name)).code ≠ 0) :
    f_git_repo_merge s lib name =
      (resolution_events lib name,
        Outcome.raises ("git merge base error: " ++
          (lib.git_merge_base (tip_id lib) (target_id lib name)).error)) := by
  unfold f_git_repo_merge
  simp only
  rw [if_neg (not_not.mpr h1), if_neg (not_not.mpr h2)]
  unfold tip_id target_id at h3
  rw [if_pos h3]
  rfl

/-- The run when the merge base is the target. -/
theorem merge_run_already (s : Bool) (lib : GitRepo) (name : String) (hr : resolves lib name)
    (h : merge_base_id lib name = target_id lib name) :
    f_git_repo_merge s lib name =
      (resolution_events lib name, Outcome.returns [LuaValue.boolean false]) := by
  obtain ⟨h1, h2, h3⟩ := hr
  have hm := (memcmp_oid _ _).mpr h
  unfold merge_base_id tip_id target_id at hm
  unfold tip_id target_id at h3
  unfold f_git_repo_merge
  simp only
  rw [if_neg (not_not.mpr h1), if_neg (not_not.mpr h2), if_neg (not_not.mpr h3), if_pos hm]
  rfl

/-- The run when the merge base is the tip and not the target. -/
theorem merge_run_fast_forward (s : Bool) (lib : GitRepo) (name : String)
    (hr : resolves lib name) (h : merge_base_id lib name ≠ target_id lib name)
    (ht : merge_base_id lib name = tip_id lib) :
    f_git_repo_merge s lib name =
      (resolution_events lib name ++ [Event.lua_pushhex (target_id lib name)],
        pushhex_outcome s (target_id lib name)) := by
  obtain ⟨h1, h2, h3⟩ := hr
  have hm := (memcmp_oid _ _).not.mpr h
  have hm2 := (memcmp_oid _ _).mpr ht
  unfold merge_base_id tip_id target_id at hm hm2
  unfold tip_id target_id at h3
  unfold f_git_repo_merge
  simp only
  rw [if_neg (not_not.mpr h1), if_neg (not_not.mpr h2), if_neg (not_not.mpr h3), if_neg hm,
    if_pos hm2]
  rfl

/-- The run when the merge base is neither the target nor the tip. -/
theorem merge_run_required (s : Bool) (lib : GitRepo) (name : String)
    (hr : resolves lib name) (h : merge_base_id lib name ≠ target_id lib name)
    (ht : merge_base_id lib name ≠ tip_id lib) :
    f_git_repo_merge s lib name =
      if (lib.git_annotated_commit_lookup (target_id lib name)).code ≠ 0 then
        (resolution_events lib name ++ [Event.git_annotated_commit_lookup (target_id lib name)],
          Outcome.raises ("git commit lookup error: " ++
            (lib.git_annotated_commit_lookup (target_id lib name)).error))
      else if (lib.git_merge (target_id lib name)).code ≠ 0 then
        (resolution_events lib name ++ [Event.git_annotated_commit_lookup (target_id lib name)] ++
            [Event.git_merge (target_id lib name), Event.git_annotated_commit_free],
          Outcome.raises ("git merge error: " ++ (lib.git_merge (target_id lib name)).error))
      else if lib.git_index_has_conflicts ≠ 0 then
        (resolution_events lib name ++ [Event.git_annotated_commit_lookup (target_id lib name)] ++
            [Event.git_merge (target_id lib name), Event.git_annotated_commit_free] ++
            [Event.git_repository_index, Event.git_index_has_conflicts, Event.git_index_free],
          Outcome.raises "git merge has conflicts")
      else
        (resolution_events lib name ++ [Event.git_annotated_commit_lookup (target_id lib name)] ++
            [Event.git_merge (target_id lib name), Event.git_annotated_commit_free] ++
            [Event.git_repository_index, Event.git_index_has_conflicts, Event.git_index_free],
          Outcome.returns [LuaValue.boolean true]) := by
  obtain ⟨h1, h2, h3⟩ := hr
  have hm := (memcmp_oid _ _).not.mpr h
  have hm2 := (memcmp_oid _ _).not.mpr ht
  unfold merge_base_id tip_id target_id at hm hm2
  unfold tip_id target_id at h3
  unfold f_git_repo_merge
  simp only
  rw [if_neg (not_not.mpr h1), if_neg (not_not.mpr h2), if_neg (not_not.mpr h3), if_neg hm,
    if_neg hm2]
  rfl

theorem pushhex_outcome_ne_false (s : Bool) (id : git_oid) :
    pushhex_outcome s id ≠ Outcome.returns [LuaValue.boolean false] := by
  unfold pushhex_outcome
  cases lua_pushhex s id.id GIT_OID_RAWSZ <;> simp

theorem merge_run_required_events (s : Bool) (lib : GitRepo) (name : String)
    (hr : resolves lib name) (h : merge_base_id lib name ≠ target_id lib name)
    (ht : merge_base_id lib name ≠ tip_id lib) :
    Event.git_annotated_commit_lookup (target_id lib name) ∈ (f_git_repo_merge s lib name).1 ∧
    Event.lua_pushhex (target_id lib name) ∉ (f_git_repo_merge s lib name).1 ∧
    (Event.git_merge (target_id lib name) ∈ (f_git_repo_merge s lib name).1 ↔
      (lib.git_annotated_commit_lookup (target_id lib name)).code = 0) := by
  obtain ⟨p1, _, p3⟩ := resolution_events_plain lib name (target_id lib name)
  rw [merge_run_required s lib name hr h ht]
  by_cases h4 : (lib.git_annotated_commit_lookup (target_id lib name)).code = 0
  · rw [if_neg (not_not.mpr h4)]
    by_cases h5 : (lib.git_merge (target_id lib name)).code = 0
    · rw [if_neg (not_not.mpr h5)]
      by_cases h6 : lib.git_index_has_conflicts = 0
      · rw [if_neg (not_not.mpr h6)]
        simp [p1, h4]
      · rw [if_pos h6]
        simp [p1, h4]
    · rw [if_pos h5]
      simp [p1, h4]
  · rw [if_pos h4]
    simp [p1, p3, h4]

/-- C2, as amended: when both name resolutions and the merge-base computation
succeed, `f_git_repo_merge` takes exactly one of three outcomes: AlreadyMerged
(returns boolean false) if and only if merge-base = target; FastForward (its
last call is `lua_pushhex` on the target id, and it ends with what that call
pushes) if and only if merge-base = tip and merge-base ≠ target; MergeRequired (it looks up
the annotated commit of the target) if and only if merge-base equals neither.
The three are mutually exclusive and cover every triple.  `git_merge` is
invoked only in the third case, and there exactly when the annotated-commit
lookup succeeds. -/
theorem merge_classification (s : Bool) (lib : GitRepo) (name : String)
    (hr : resolves lib name) :
    (already_merged (target_id lib name) (f_git_repo_merge s lib name) ↔
      merge_base_id lib name = target_id lib name) ∧
    (fast_forward s (target_id lib name) (f_git_repo_merge s lib name) ↔
      (merge_base_id lib name = tip_id lib ∧ merge_base_id lib name ≠ target_id lib name)) ∧
    (merge_required (target_id lib name) (f_git_repo_merge s lib name) ↔
      (merge_base_id lib name ≠ target_id lib name ∧ merge_base_id lib name ≠ tip_id lib)) ∧
    (Event.git_merge (target_id lib name) ∈ (f_git_repo_merge s lib name).1 ↔
      (merge_base_id lib name ≠ target_id lib name ∧ merge_base_id lib name ≠ tip_id lib ∧
        (lib.git_annotated_commit_lookup (target_id lib name)).code = 0)) ∧
    (already_merged (target_id lib name) (f_git_repo_merge s lib name) ∨
      fast_forward s (target_id lib name) (f_git_repo_merge s lib name) ∨
      merge_required (target_id lib name) (f_git_repo_merge s lib name)) ∧
    ¬ (already_merged (target_id lib name) (f_git_repo_merge s lib name) ∧
      fast_forward s (target_id lib name) (f_git_repo_merge s lib name)) ∧
    ¬ (already_merged (target_id lib name) (f_git_repo_merge s lib name) ∧
      merge_required (target_id lib name) (f_git_repo_merge s lib name)) ∧
    ¬ (fast_forward s (target_id lib name) (f_git_repo_merge s lib name) ∧
      merge_required (target_id lib name) (f_git_repo_merge s lib name)) := by
  obtain ⟨p1, p2, p3⟩ := resolution_events_plain lib name (target_id lib name)
  unfold already_merged fast_forward merge_required
  by_cases h : merge_base_id lib name = target_id lib name
  · rw [merge_run_already s lib name hr h]
    simp [p1, p2, p3, h]
  · by_cases ht : merge_base_id lib name = tip_id lib
    · rw [merge_run_fast_forward s lib name hr h ht]
      have hne := pushhex_outcome_ne_false s (target_id lib name)
      have hne2 : tip_id lib ≠ target_id lib name := fun e => h (ht.trans e)
      simp [p1, p2, p3, ht, hne, hne2]
    · obtain ⟨q1, q2, q3⟩ := merge_run_required_events s lib name hr h ht
      simp [q1, q2, q3, h, ht]

/-- C2, instance of the amended claim: in `repo_lookup_fails` the resolutions
succeed, and the classification holds for the target `topic`. -/
theorem merge_classification_witness :
    resolves repo_lookup_fails "topic" ∧
    (merge_required (target_id repo_lookup_fails "topic")
        (f_git_repo_merge true repo_lookup_fails "topic") ↔
      (merge_base_id repo_lookup_fails "topic" ≠ target_id repo_lookup_fails "topic" ∧
        merge_base_id repo_lookup_fails "topic" ≠ tip_id repo_lookup_fails)) :=
  ⟨by decide, (merge_classification true repo_lookup_fails "topic" (by decide)).2.2.1⟩

set_option maxRecDepth 100000 in
/-- C2 fails as stated: in `repo_lookup_fails` both resolutions and the merge
base succeed and the merge base equals neither the target nor the tip, yet
`git_merge` is not invoked: the annotated-commit lookup fails first and the
call raises.  None of the three outcomes of the claim is taken. -/
theorem merge_required_without_git_merge :
    resolves repo_lookup_fails "topic" ∧
    merge_base_id repo_lookup_fails "topic" ≠ target_id repo_lookup_fails "topic" ∧
    merge_base_id repo_lookup_fails "topic" ≠ tip_id repo_lookup_fails ∧
    Event.git_merge (target_id repo_lookup_fails "topic") ∉
      (f_git_repo_merge true repo_lookup_fails "topic").1 ∧
    (f_git_repo_merge true repo_lookup_fails "topic").2 =
      Outcome.raises "git commit lookup error: object not found" := by
  decide

/-- C3: when the target name resolves to the id of the current tip
(`refs/heads/master`) and the merge base of that commit with itself is that
commit, `f_git_repo_merge` returns the one value boolean false; it does not
return a string, it encodes no id, and it neither looks up an annotated commit
nor invokes `git_merge`. -/
theorem merge_of_tip_already_merged (s : Bool) (lib : GitRepo) (name : String)
    (h1 : (git_get_id lib name).2.code = 0)
    (h2 : (git_get_id lib "refs/heads/master").2.code = 0)
    (heq : target_id lib name = tip_id lib)
    (hcode : (lib.git_merge_base (tip_id lib) (tip_id lib)).code = 0)
    (hself : (lib.git_merge_base (tip_id lib) (tip_id lib)).out = tip_id lib) :
    (f_git_repo_merge s lib name).2 = Outcome.returns [LuaValue.boolean false] ∧
    (∀ str, (f_git_repo_merge s lib name).2 ≠ Outcome.returns [LuaValue.string str]) ∧
    (∀ id, Event.lua_pushhex id ∉ (f_git_repo_merge s lib name).1) ∧
    (∀ id, Event.git_annotated_commit_lookup id ∉ (f_git_repo_merge s lib name).1) ∧
    (∀ id, Event.git_merge id ∉ (f_git_repo_merge s lib name).1) := by
  have hr : resolves lib name := ⟨h1, h2, by rw [heq]; exact hcode⟩
  have hb : merge_base_id lib name = target_id lib name := by
    unfold merge_base_id
    rw [heq]
    exact hself
  rw [merge_run_already s lib name hr hb]
  refine ⟨rfl, fun str => by simp, fun id => ?_, fun id => ?_, fun id => ?_⟩
  · exact (resolution_events_plain lib name id).1
  · exact (resolution_events_plain lib name id).2.1
  · exact (resolution_events_plain lib name id).2.2

/-- C3, instance: in `repo_at_tip` the target `topic` is the tip, and merging
it returns boolean false. -/
theorem merge_of_tip_already_merged_witness :
    target_id repo_at_tip "topic" = tip_id repo_at_tip ∧
    (f_git_repo_merge true repo_at_tip "topic").2 = Outcome.returns [LuaValue.boolean false] :=
  ⟨by decide,
    (merge_of_tip_already_merged true repo_at_tip "topic" (by decide) (by decide) (by decide)
      (by decide) (by decide)).1⟩

/-- On a platform with signed `char`, the loop of `lua_pushhex` leaves defined
behaviour as soon as it reaches a byte of 0x80 or more. -/
theorem lua_pushhex_loop_negative (hex : List (Fin 256)) (length : Nat) (j : Nat)
    (hjlen : j < hex.length) (hj : j < length) (hj512 : j < 512) (hb : 128 ≤ hex[j].val)
    (fuel i : Nat) (buffer : List (Option Char)) (hij : i ≤ j) (hfuel : j - i < fuel) :
    lua_pushhex_loop true hex length fuel i buffer = none := by
  induction fuel generalizing i buffer with
  | zero => omega
  | succ f ih =>
    have hi : i < hex.length := by omega
    have hc : i < length ∧ i < 1024 / 2 := ⟨by omega, by omega⟩
    have hget : hex.get? i = some hex[i] := by
      rw [List.get?_eq_getElem?, List.getElem?_eq_getElem hi]
    simp only [lua_pushhex_loop]
    rw [if_pos hc, hget]
    rcases Nat.eq_or_lt_of_le hij with e | hlt
    · subst e
      simp only [high_nibble_negative hex[i] hb]
    · simp only
      split
      · exact ih (i + 1) _ hlt (by omega)
      · rfl

/-- On a platform with signed `char`, `lua_pushhex` has no defined result for an
id of at most 512 bytes that holds a byte of 0x80 or more. -/
theorem lua_pushhex_signed_high_byte (hex : List (Fin 256)) (hlen : hex.length ≤ 512)
    (b : Fin 256) (hmem : b ∈ hex) (hb : 128 ≤ b.val) :
    lua_pushhex true hex hex.length = none := by
  obtain ⟨j, hj, rfl⟩ := List.mem_iff_getElem.mp hmem
  unfold lua_pushhex
  rw [lua_pushhex_loop_negative hex hex.length j hj hj (by omega) hb (1024 / 2) 0 _
    (Nat.zero_le _) (by omega)]

/-- The fast-forward result where `lua_pushhex` is defined (unsigned `char`, or
a target id without a byte of 0x80 or more): one string, the lowercase
hexadecimal encoding of the target id, 40 characters long, which decodes back
to the id; and neither the annotated-commit lookup nor `git_merge` is called. -/
theorem merge_fast_forward_hex (s : Bool) (lib : GitRepo) (name : String)
    (hr : resolves lib name) (h : merge_base_id lib name ≠ target_id lib name)
    (ht : merge_base_id lib name = tip_id lib)
    (hb : s = false ∨ ∀ b ∈ (target_id lib name).id, b.val < 128) :
    (f_git_repo_merge s lib name).2 =
      Outcome.returns [LuaValue.string (String.mk (hex_encode (target_id lib name).id))] ∧
    (hex_encode (target_id lib name).id).length = 40 ∧
    hex_decode (hex_encode (target_id lib name).id) = some (target_id lib name).id ∧
    (∀ id, Event.git_annotated_commit_lookup id ∉ (f_git_repo_merge s lib name).1) ∧
    (∀ id, Event.git_merge id ∉ (f_git_repo_merge s lib name).1) := by
  have hsz := (target_id lib name).size
  have hp := lua_pushhex_eq_hex_encode s (target_id lib name).id (by rw [hsz]; decide) hb
  rw [hsz] at hp
  rw [merge_run_fast_forward s lib name hr h ht]
  refine ⟨?_, ?_, hex_decode_hex_encode _, fun id => ?_, fun id => ?_⟩
  · simp only [pushhex_outcome, hp]
  · rw [hex_encode_length, hsz]; rfl
  · have := (resolution_events_plain lib name id).2.1
    simp [this]
  · have := (resolution_events_plain lib name id).2.2
    simp [this]

/-- The fast-forward result on a platform with signed `char` when the target id
holds a byte of 0x80 or more: the call has no defined result. -/
theorem merge_fast_forward_undefined (lib : GitRepo) (name : String)
    (hr : resolves lib name) (h : merge_base_id lib name ≠ target_id lib name)
    (ht : merge_base_id lib name = tip_id lib)
    (b : Fin 256) (hmem : b ∈ (target_id lib name).id) (hb : 128 ≤ b.val) :
    (f_git_repo_merge true lib name).2 = Outcome.undefined := by
  have hsz := (target_id lib name).size
  have hp := lua_pushhex_signed_high_byte (target_id lib name).id (by rw [hsz]; decide) b hmem hb
  rw [hsz] at hp
  rw [merge_run_fast_forward true lib name hr h ht]
  simp only [pushhex_outcome, hp]

set_option maxRecDepth 100000 in
/-- C4, the code at the failing input: on a platform with signed `char`, a
fast-forward to the target id `4b825dc6...` (merge base = tip ≠ target) does
not return the hexadecimal text of the id: `lua_pushhex` indexes `hexDigits`
with a negative number at the byte 0x82, and the call has no defined result.
The text it should have returned is `4b825dc642cb6eb9a060e54bf8d69288fbee4904`. -/
theorem merge_fast_forward_signed_char :
    resolves repo_fast_forward "topic" ∧
    target_id repo_fast_forward "topic" = sample_oid ∧
    merge_base_id repo_fast_forward "topic" = tip_id repo_fast_forward ∧
    merge_base_id repo_fast_forward "topic" ≠ target_id repo_fast_forward "topic" ∧
    (f_git_repo_merge true repo_fast_forward "topic").2 = Outcome.undefined ∧
    String.mk (hex_encode sample_oid.id) = "4b825dc642cb6eb9a060e54bf8d69288fbee4904" := by
  decide

set_option maxRecDepth 100000 in
/-- C5, the code at the failing input: for the 20-byte id `4b825dc6...` on a
platform with signed `char`, `lua_pushhex` has no defined result (the byte 0x82
reads as -126, and `hexDigits[-126 >> 4]` is `hexDigits[-8]`); with unsigned
`char` the same call pushes the 40 characters of the hexadecimal encoding. -/
theorem lua_pushhex_sample_oid :
    char_value true 0x82 = -126 ∧
    char_value true 0x82 >>> 4 = -8 ∧
    literal_at hexDigits (-8) = none ∧
    lua_pushhex true sample_oid.id 20 = none ∧
    lua_pushhex false sample_oid.id 20 = some "4b825dc642cb6eb9a060e54bf8d69288fbee4904" := by
  refine ⟨by decide, by decide, by decide, ?_, ?_⟩
  · exact lua_pushhex_signed_high_byte sample_oid.id (by decide) 0x82 (by decide) (by decide)
  · rw [show (20 : Nat) = sample_oid.id.length from rfl,
      lua_pushhex_eq_hex_encode false sample_oid.id (by decide) (Or.inl rfl)]
    decide

theorem lua_pushhex_loop_length (s : Bool) (hex : List (Fin 256)) (length fuel i : Nat)
    (buffer out : List (Option Char))
    (h : lua_pushhex_loop s hex length fuel i buffer = some out) :
    out.length = buffer.length := by
  induction fuel generalizing i buffer with
  | zero =>
    simp only [lua_pushhex_loop, Option.some.injEq] at h
    rw [← h]
  | succ f ih =>
    simp only [lua_pushhex_loop] at h
    split at h
    · split at h
      · exact absurd h (by simp)
      · split at h
        · rw [ih _ _ h, List.length_set, List.length_set]
        · exact absurd h (by simp)
    · simp only [Option.some.injEq] at h
      rw [← h]

/-- For more than 512 bytes `lua_pushhex` has no defined result on any platform:
`lua_pushlstring` is asked for more characters than `buffer` holds. -/
theorem lua_pushhex_too_long (s : Bool) (hex : List (Fin 256)) (length : Nat)
    (h : 512 < length) : lua_pushhex s hex length = none := by
  unfold lua_pushhex
  cases hl : lua_pushhex_loop s hex length (1024 / 2) 0 (List.replicate 1024 none) with
  | none => rfl
  | some out =>
    have hlen := lua_pushhex_loop_length s hex length _ _ _ _ hl
    rw [List.length_replicate] at hlen
    simp only [lua_pushlstring]
    rw [if_neg (by omega)]

/-! ## The error messages of `f_git_repo_merge` -/

theorem reference_ne_merge_base (a b : String) :
    "git reference lookup error: " ++ a ≠ "git merge base error: " ++ b := by
  intro h
  have h2 := congrArg String.data h
  simp at h2

theorem reference_ne_commit_lookup (a b : String) :
    "git reference lookup error: " ++ a ≠ "git commit lookup error: " ++ b := by
  intro h
  have h2 := congrArg String.data h
  simp at h2

theorem reference_ne_merge (a b : String) :
    "git reference lookup error: " ++ a ≠ "git merge error: " ++ b := by
  intro h
  have h2 := congrArg String.data h
  simp at h2

theorem merge_base_ne_commit_lookup (a b : String) :
    "git merge base error: " ++ a ≠ "git commit lookup error: " ++ b := by
  intro h
  have h2 := congrArg String.data h
  simp at h2

theorem merge_base_ne_merge (a b : String) :
    "git merge base error: " ++ a ≠ "git merge error: " ++ b := by
  intro h
  have h2 := congrArg String.data h
  simp at h2

theorem commit_lookup_ne_merge (a b : String) :
    "git commit lookup error: " ++ a ≠ "git merge error: " ++ b := by
  intro h
  have h2 := congrArg String.data h
  simp at h2

theorem reference_ne_conflicts (a : String) :
    "git reference lookup error: " ++ a ≠ "git merge has conflicts" := by
  intro h
  have h2 := congrArg String.data h
  simp at h2

theorem merge_base_ne_conflicts (a : String) :
    "git merge base error: " ++ a ≠ "git merge has conflicts" := by
  intro h
  have h2 := congrArg String.data h
  simp at h2

theorem commit_lookup_ne_conflicts (a : String) :
    "git commit lookup error: " ++ a ≠ "git merge has conflicts" := by
  intro h
  have h2 := congrArg String.data h
  simp at h2

theorem merge_ne_conflicts (a : String) :
    "git merge error: " ++ a ≠ "git merge has conflicts" := by
  intro h
  have h2 := congrArg String.data h
  simp at h2

/-- The results of the MergeRequired case. -/
theorem merge_required_results (s : Bool) (lib : GitRepo) (name : String)
    (hr : resolves lib name) (h : merge_base_id lib name ≠ target_id lib name)
    (ht : merge_base_id lib name ≠ tip_id lib) :
    ((lib.git_annotated_commit_lookup (target_id lib name)).code ≠ 0 →
      (f_git_repo_merge s lib name).2 = Outcome.raises ("git commit lookup error: " ++
        (lib.git_annotated_commit_lookup (target_id lib name)).error)) ∧
    ((lib.git_annotated_commit_lookup (target_id lib name)).code = 0 →
      (lib.git_merge (target_id lib name)).code ≠ 0 →
      (f_git_repo_merge s lib name).2 = Outcome.raises ("git merge error: " ++
        (lib.git_merge (target_id lib name)).error)) ∧
    ((f_git_repo_merge s lib name).2 = Outcome.returns [LuaValue.boolean true] ↔
      ((lib.git_annotated_commit_lookup (target_id lib name)).code = 0 ∧
        (lib.git_merge (target_id lib name)).code = 0 ∧ lib.git_index_has_conflicts = 0)) ∧
    ((f_git_repo_merge s lib name).2 = Outcome.raises "git merge has conflicts" ↔
      ((lib.git_annotated_commit_lookup (target_id lib name)).code = 0 ∧
        (lib.git_merge (target_id lib name)).code = 0 ∧ lib.git_index_has_conflicts ≠ 0)) ∧
    (((lib.git_annotated_commit_lookup (target_id lib name)).code ≠ 0 ∨
        (lib.git_merge (target_id lib name)).code ≠ 0 ∨ lib.git_index_has_conflicts ≠ 0) →
      ∀ values, (f_git_repo_merge s lib name).2 ≠ Outcome.returns values) := by
  rw [merge_run_required s lib name hr h ht]
  by_cases h4 : (lib.git_annotated_commit_lookup (target_id lib name)).code = 0
  · rw [if_neg (not_not.mpr h4)]
    by_cases h5 : (lib.git_merge (target_id lib name)).code = 0
    · rw [if_neg (not_not.mpr h5)]
      by_cases h6 : lib.git_index_has_conflicts = 0
      · rw [if_neg (not_not.mpr h6)]
        simp [h4, h5, h6]
      · rw [if_pos h6]
        simp [h4, h5, h6]
    · rw [if_pos h5]
      simp [h4, h5, merge_ne_conflicts]
  · rw [if_pos h4]
    simp [h4, commit_lookup_ne_conflicts]

/-- C10: in the MergeRequired case (merge base equals neither target nor tip)
`f_git_repo_merge` returns boolean true if and only if the annotated-commit
lookup succeeded, `git_merge` succeeded and the index reports no conflicts; it
raises "git merge has conflicts" exactly when the merge succeeded but the index
has conflicts.  The four earlier failures raise
"git reference lookup error: ", "git merge base error: ",
"git commit lookup error: " and "git merge error: " followed by the library's
last-error text; messages with different ones of these prefixes are never
equal, and none equals the conflict message.  No failure path returns a value. -/
theorem merge_results_and_errors (s : Bool) (lib : GitRepo) (name : String) :
    ((git_get_id lib name).2.code ≠ 0 →
      (f_git_repo_merge s lib name).2 =
        Outcome.raises ("git reference lookup error: " ++ (git_get_id lib name).2.error)) ∧
    ((git_get_id lib name).2.code = 0 → (git_get_id lib "refs/heads/master").2.code ≠ 0 →
      (f_git_repo_merge s lib name).2 =
        Outcome.raises ("git reference lookup error: " ++
          (git_get_id lib "refs/heads/master").2.error)) ∧
    ((git_get_id lib name).2.code = 0 → (git_get_id lib "refs/heads/master").2.code = 0 →
      (lib.git_merge_base (tip_id lib) (target_id lib name)).code ≠ 0 →
      (f_git_repo_merge s lib name).2 =
        Outcome.raises ("git merge base error: " ++
          (lib.git_merge_base (tip_id lib) (target_id lib name)).error)) ∧
    (resolves lib name → merge_base_id lib name ≠ target_id lib name →
      merge_base_id lib name ≠ tip_id lib →
      ((lib.git_annotated_commit_lookup (target_id lib name)).code ≠ 0 →
        (f_git_repo_merge s lib name).2 = Outcome.raises ("git commit lookup error: " ++
          (lib.git_annotated_commit_lookup (target_id lib name)).error)) ∧
      ((lib.git_annotated_commit_lookup (target_id lib name)).code = 0 →
        (lib.git_merge (target_id lib name)).code ≠ 0 →
        (f_git_repo_merge s lib name).2 = Outcome.raises ("git merge error: " ++
          (lib.git_merge (target_id lib name)).error)) ∧
      ((f_git_repo_merge s lib name).2 = Outcome.returns [LuaValue.boolean true] ↔
        ((lib.git_annotated_commit_lookup (target_id lib name)).code = 0 ∧
          (lib.git_merge (target_id lib name)).code = 0 ∧ lib.git_index_has_conflicts = 0)) ∧
      ((f_git_repo_merge s lib name).2 = Outcome.raises "git merge has conflicts" ↔
        ((lib.git_annotated_commit_lookup (target_id lib name)).code = 0 ∧
          (lib.git_merge (target_id lib name)).code = 0 ∧ lib.git_index_has_conflicts ≠ 0)) ∧
      (((lib.git_annotated_commit_lookup (target_id lib name)).code ≠ 0 ∨
          (lib.git_merge (target_id lib name)).code ≠ 0 ∨ lib.git_index_has_conflicts ≠ 0) →
        ∀ values, (f_git_repo_merge s lib name).2 ≠ Outcome.returns values)) ∧
    (¬ resolves lib name →
      ∀ values, (f_git_repo_merge s lib name).2 ≠ Outcome.returns values) ∧
    (∀ a b : String,
      "git reference lookup error: " ++ a ≠ "git merge base error: " ++ b ∧
      "git reference lookup error: " ++ a ≠ "git commit lookup error: " ++ b ∧
      "git reference lookup error: " ++ a ≠ "git merge error: " ++ b ∧
      "git merge base error: " ++ a ≠ "git commit lookup error: " ++ b ∧
      "git merge base error: " ++ a ≠ "git merge error: " ++ b ∧
      "git commit lookup error: " ++ a ≠ "git merge error: " ++ b ∧
      "git reference lookup error: " ++ a ≠ "git merge has conflicts" ∧
      "git merge base error: " ++ a ≠ "git merge has conflicts" ∧
      "git commit lookup error: " ++ a ≠ "git merge has conflicts" ∧
      "git merge error: " ++ a ≠ "git merge has conflicts") := by
  refine ⟨fun h1 => ?_, fun h1 h2 => ?_, fun h1 h2 h3 => ?_, fun hr h ht => ?_, fun hn => ?_,
    fun a b => ?_⟩
  · rw [merge_target_unresolved s lib name h1]
  · rw [merge_tip_unresolved s lib name h1 h2]
  · rw [merge_base_failed s lib name h1 h2 h3]
  · exact merge_required_results s lib name hr h ht
  · intro values
    by_cases h1 : (git_get_id lib name).2.code = 0
    · by_cases h2 : (git_get_id lib "refs/heads/master").2.code = 0
      · by_cases h3 : (lib.git_merge_base (tip_id lib) (target_id lib name)).code = 0
        · exact absurd ⟨h1, h2, h3⟩ hn
        · rw [merge_base_failed s lib name h1 h2 h3]; simp
      · rw [merge_tip_unresolved s lib name h1 h2]; simp
    · rw [merge_target_unresolved s lib name h1]; simp
  · exact ⟨reference_ne_merge_base a b, reference_ne_commit_lookup a b, reference_ne_merge a b,
      merge_base_ne_commit_lookup a b, merge_base_ne_merge a b, commit_lookup_ne_merge a b,
      reference_ne_conflicts a, merge_base_ne_conflicts a, commit_lookup_ne_conflicts a,
      merge_ne_conflicts a⟩

/-- C10, instance: in `repo_lookup_fails` the MergeRequired case is reached for
the target `topic`, the annotated-commit lookup fails, and the call raises the
lookup message. -/
theorem merge_results_and_errors_witness :
    resolves repo_lookup_fails "topic" ∧
    merge_base_id repo_lookup_fails "topic" ≠ target_id repo_lookup_fails "topic" ∧
    merge_base_id repo_lookup_fails "topic" ≠ tip_id repo_lookup_fails ∧
    (repo_lookup_fails.git_annotated_commit_lookup (target_id repo_lookup_fails "topic")).code
      ≠ 0 ∧
    (f_git_repo_merge true repo_lookup_fails "topic").2 =
      Outcome.raises ("git commit lookup error: " ++
        (repo_lookup_fails.git_annotated_commit_lookup
          (target_id repo_lookup_fails "topic")).error) :=
  ⟨by decide, by decide, by decide, by decide,
    ((merge_results_and_errors true repo_lookup_fails "topic").2.2.2.1 (by decide) (by decide)
      (by decide)).1 (by decide)⟩

/-! ## The work functions and the poll -/

theorem first_char_strncpy (message : String) (h : first_char message.data ≠ NUL) :
    first_char (strncpy message 512) ≠ NUL := by
  unfold first_char strncpy at *
  cases hd : message.data with
  | nil => rw [hd] at h; exact absurd rfl h
  | cons c cs =>
    rw [hd] at h
    simpa using h

/-- The fetch work function when opening the repository fails: it stores the
message and returns -1 without storing into the completion flag. -/
theorem fetch_callback_open_failure (lib : GitNet) (operation : operation_t)
    (h : (lib.git_repository_open operation.path).code ≠ 0) :
    git_remote_fetch_callback lib (VoidPtr.operation operation) =
      some
        { events := [Event.git_repository_open operation.path,
            Event.strncpy_error (lib.git_repository_open operation.path).error]
          operation := store_error operation (lib.git_repository_open operation.path).error
          result := -1 } := by
  simp only [git_remote_fetch_callback]
  rw [if_pos h]

/-- The fetch work function when the remote lookup fails: as for a failing
open, and the repository handle is not freed. -/
theorem fetch_callback_lookup_failure (lib : GitNet) (operation : operation_t)
    (h1 : (lib.git_repository_open operation.path).code = 0)
    (h2 : (lib.git_remote_lookup operation.remote).code ≠ 0) :
    git_remote_fetch_callback lib (VoidPtr.operation operation) =
      some
        { events := [Event.git_repository_open operation.path,
            Event.git_remote_lookup operation.remote,
            Event.strncpy_error (lib.git_remote_lookup operation.remote).error]
          operation := store_error operation (lib.git_remote_lookup operation.remote).error
          result := -1 } := by
  simp only [git_remote_fetch_callback]
  rw [if_neg (not_not.mpr h1), if_pos h2]

/-- For the fetch work function the error buffer is empty on return exactly when
the returned value is 0, provided the buffer was empty at submission and every
failing library call leaves a non-empty message. -/
theorem fetch_callback_error_empty_iff (lib : GitNet) (operation : operation_t)
    (hempty : first_char operation.error = NUL)
    (hopen : first_char (lib.git_repository_open operation.path).error.data ≠ NUL)
    (hlookup : first_char (lib.git_remote_lookup operation.remote).error.data ≠ NUL)
    (hfetch : first_char (lib.git_remote_fetch operation.remote operation.username
      operation.password).error.data ≠ NUL) :
    ∃ run, git_remote_fetch_callback lib (VoidPtr.operation operation) = some run ∧
      (first_char run.operation.error = NUL ↔ run.result = 0) := by
  simp only [git_remote_fetch_callback]
  by_cases h1 : (lib.git_repository_open operation.path).code = 0
  · rw [if_neg (not_not.mpr h1)]
    by_cases h2 : (lib.git_remote_lookup operation.remote).code = 0
    · rw [if_neg (not_not.mpr h2)]
      by_cases h3 : (lib.git_remote_fetch operation.remote operation.username
          operation.password).code = 0
      · rw [if_neg (not_not.mpr h3)]
        exact ⟨_, rfl, by simp [store_complete, hempty, h3]⟩
      · rw [if_pos h3]
        refine ⟨_, rfl, ?_⟩
        have := first_char_strncpy _ hfetch
        simp [store_complete, store_error, this, h3]
    · rw [if_pos h2]
      refine ⟨_, rfl, ?_⟩
      have := first_char_strncpy _ hlookup
      simp [store_error, this]
  · rw [if_pos h1]
    refine ⟨_, rfl, ?_⟩
    have := first_char_strncpy _ hopen
    simp [store_error, this]

/-- For the push work function the same holds when the repository and the
remote were opened; the flag is then stored after both handles are freed. -/
theorem push_callback_error_empty_iff (lib : GitNet) (operation : operation_t)
    (hempty : first_char operation.error = NUL)
    (h1 : (lib.git_repository_open operation.path).code = 0)
    (h2 : (lib.git_remote_lookup operation.remote).code = 0)
    (hpush : first_char (lib.git_remote_push operation.remote operation.branch
      operation.username operation.password).error.data ≠ NUL) :
    ∃ run, git_remote_push_callback lib (VoidPtr.operation operation) = some run ∧
      (first_char run.operation.error = NUL ↔ run.result = 0) ∧
      run.operation.complete = 1 ∧
      run.events.getLast? = some Event.set_complete := by
  simp only [git_remote_push_callback]
  rw [if_neg (not_not.mpr h1), if_neg (not_not.mpr h2)]
  by_cases h3 : (lib.git_remote_push operation.remote operation.branch operation.username
      operation.password).code = 0
  · rw [if_neg (not_not.mpr h3)]
    exact ⟨_, rfl, by simp [store_complete, hempty, h3], rfl, rfl⟩
  · rw [if_pos h3]
    refine ⟨_, rfl, ?_, rfl, rfl⟩
    have := first_char_strncpy _ hpush
    simp [store_complete, store_error, this, h3]

/-- The push work function has no defined behaviour when the repository cannot
be opened or the remote cannot be looked up. -/
theorem push_callback_unchecked_failure (lib : GitNet) (operation : operation_t)
    (h : (lib.git_repository_open operation.path).code ≠ 0 ∨
      (lib.git_remote_lookup operation.remote).code ≠ 0) :
    git_remote_push_callback lib (VoidPtr.operation operation) = none := by
  simp only [git_remote_push_callback]
  by_cases h1 : (lib.git_repository_open operation.path).code = 0
  · rw [if_neg (not_not.mpr h1), if_pos (h.resolve_left (not_not.mpr h1))]
  · rw [if_pos h1]

set_option maxRecDepth 100000 in
/-- C6, the code at the failing inputs.  When opening the repository fails, the
fetch work function returns -1 and the completion flag of the Operation is
still 0: no store into it was made.  When every call succeeds, the fetch work
function stores the flag before it frees the remote and the repository.  The
push work function, on the same successful input, stores it after both. -/
theorem fetch_callback_completion_flag :
    (git_remote_fetch_callback net_open_fails (VoidPtr.operation sample_operation)).map
        (fun run => (run.events, run.operation.complete, run.result)) =
      some ([Event.git_repository_open "/repo/.git/",
        Event.strncpy_error "could not find repository"], 0, -1) ∧
    (git_remote_fetch_callback net_ok (VoidPtr.operation sample_operation)).map
        (fun run => (run.events, run.operation.complete, run.result)) =
      some ([Event.git_repository_open "/repo/.git/", Event.git_remote_lookup "origin",
        Event.git_remote_fetch "origin", Event.set_complete, Event.git_remote_free,
        Event.git_repository_free], 1, 0) ∧
    (git_remote_push_callback net_ok (VoidPtr.operation sample_operation)).map
        (fun run => (run.events, run.operation.complete, run.result)) =
      some ([Event.git_repository_open "/repo/.git/", Event.git_remote_lookup "origin",
        Event.git_remote_push "origin" "refs/heads/master", Event.git_remote_free,
        Event.git_repository_free, Event.set_complete], 1, 0) := by
  decide

set_option maxRecDepth 100000 in
/-- C7, the code at the failing input.  When opening the repository fails, the
push work function does not store the library's message: it does not read the
return code and goes on with a repository handle that was never set, so it has
no defined behaviour.  The fetch work function, on the same input, stores the
message (the buffer then starts with `c`) and returns -1. -/
theorem push_callback_open_failure :
    (net_open_fails.git_repository_open sample_operation.path).code ≠ 0 ∧
    first_char sample_operation.error = NUL ∧
    git_remote_push_callback net_open_fails (VoidPtr.operation sample_operation) = none ∧
    (git_remote_fetch_callback net_open_fails (VoidPtr.operation sample_operation)).map
        (fun run => (first_char run.operation.error, run.result)) = some ('c', -1) := by
  decide

/-- One poll re-check does exactly one of two things.  When
`complete` = 0 it makes no call, raises nothing and yields the fixed delay 0.05
with the same context and `f_git_remote_operationk` as continuation.  When
`complete` ≠ 0 it releases the registry reference and the thread handle and
then returns zero results if the error buffer is empty, or, if the buffer is
not empty and holds a NUL-terminated string, raises
"git remote operation error: " followed by the buffered message. -/
theorem operationk_poll (operation : operation_t) (ctx : Int) :
    (operation.complete = 0 →
      f_git_remote_operationk operation ctx =
        ([], Outcome.yields [LuaValue.number poll_delay] ctx
          KFunction.f_git_remote_operationk)) ∧
    (operation.complete ≠ 0 → first_char operation.error = NUL →
      f_git_remote_operationk operation ctx =
        ([Event.luaL_unref ctx, Event.close_thread operation.thread], Outcome.returns [])) ∧
    (operation.complete ≠ 0 → first_char operation.error ≠ NUL → NUL ∈ operation.error →
      f_git_remote_operationk operation ctx =
        ([Event.luaL_unref ctx, Event.close_thread operation.thread],
          Outcome.raises ("git remote operation error: " ++
            String.mk (operation.error.takeWhile (fun c => c ≠ NUL))))) := by
  unfold f_git_remote_operationk
  refine ⟨fun h => ?_, fun h he => ?_, fun h he ht => ?_⟩
  · rw [if_neg (not_not.mpr h)]
  · rw [if_pos h, if_neg (not_not.mpr he)]
  · rw [if_pos h, if_pos he]
    unfold raise_operation_error c_string
    rw [if_pos ht]

set_option maxRecDepth 100000 in
/-- An instance: `failed_operation` is complete and its buffer holds the
terminated message `denied`; the poll releases both handles and raises it. -/
theorem operationk_poll_witness :
    failed_operation.complete ≠ 0 ∧ first_char failed_operation.error ≠ NUL ∧
    NUL ∈ failed_operation.error ∧
    f_git_remote_operationk failed_operation 3 =
      ([Event.luaL_unref 3, Event.close_thread failed_operation.thread],
        Outcome.raises ("git remote operation error: " ++
          String.mk (failed_operation.error.takeWhile (fun c => c ≠ NUL)))) :=
  ⟨by decide, by decide, by decide,
    (operationk_poll failed_operation 3).2.2 (by decide) (by decide) (by decide)⟩

set_option maxRecDepth 100000 in
/-- C8, the code at the failing input: `unterminated_operation` is the
Operation the fetch work function leaves when the library's message has 600
characters.  It is
complete and its buffer is not empty, but the buffer has no terminator: the
`%s` of `luaL_error` reads past the array, and the poll neither returns nor
raises the buffered message. -/
theorem operationk_unterminated_buffer :
    (git_remote_fetch_callback net_long_error (VoidPtr.operation sample_operation)).map
        (fun run => run.operation) = some unterminated_operation ∧
    unterminated_operation.complete ≠ 0 ∧
    first_char unterminated_operation.error ≠ NUL ∧
    f_git_remote_operationk unterminated_operation 3 =
      ([Event.luaL_unref 3, Event.close_thread unterminated_operation.thread],
        Outcome.undefined) := by
  decide

/-- C9, the code on the main thread and off it.  Called from the main thread,
fetch and push hand `&operation` (the address of the pointer variable) to the
work function, not the Operation that was filled in: the work function then
has no defined behaviour, whatever the library answers.  Called from another
context, each starts one thread on the Operation itself, takes one registry
reference and yields the delay 0.05 with `f_git_remote_operationk`. -/
theorem remote_operation_submit (lib : GitNet) (args : RemoteArgs) (fresh : operation_t)
    (thread : Nat) (r : Int) :
    f_git_remote_fetch lib true args fresh thread r = ([], Outcome.undefined) ∧
    f_git_remote_push lib true args fresh thread r = ([], Outcome.undefined) ∧
    f_git_remote_fetch lib false args fresh thread r =
      ([Event.create_thread WorkerFn.git_remote_fetch_callback
          (VoidPtr.operation (fetch_operation args fresh)),
        Event.luaL_ref r (VoidPtr.operation { fetch_operation args fresh with thread := thread })],
        Outcome.yields [LuaValue.number poll_delay] r KFunction.f_git_remote_operationk) ∧
    f_git_remote_push lib false args fresh thread r =
      ([Event.create_thread WorkerFn.git_remote_push_callback
          (VoidPtr.operation (push_operation args fresh)),
        Event.luaL_ref r (VoidPtr.operation { push_operation args fresh with thread := thread })],
        Outcome.yields [LuaValue.number poll_delay] r KFunction.f_git_remote_operationk) :=
  ⟨rfl, rfl, rfl, rfl⟩

/-! ## `f_git_repo_create_load_branch` -/

/-- Every result code other than the two the function tests for takes the
`else` branch, a failing lookup included: the call pushes `false`, frees
`reference` and does not raise. -/
theorem branch_lookup_other_code (codes : BranchCodes) (lib : GitRefs)
    (branch_name_arg commit_name_arg : String)
    (h1 : (lib.git_branch_lookup (luaL_checkstring branch_name_arg)).code ≠
      codes.GIT_EINVALIDSPEC)
    (h2 : (lib.git_branch_lookup (luaL_checkstring branch_name_arg)).code ≠
      codes.GIT_ENOTFOUND) :
    f_git_repo_create_load_branch codes lib branch_name_arg commit_name_arg =
      ([Event.git_branch_lookup (luaL_checkstring branch_name_arg),
          Event.git_reference_free (lib.git_branch_lookup (luaL_checkstring branch_name_arg)).out],
        free_reference_and_return
          (lib.git_branch_lookup (luaL_checkstring branch_name_arg)).out false) ∧
    ∀ message, (f_git_repo_create_load_branch codes lib branch_name_arg commit_name_arg).2 ≠
      Outcome.raises message := by
  have e : f_git_repo_create_load_branch codes lib branch_name_arg commit_name_arg =
      ([Event.git_branch_lookup (luaL_checkstring branch_name_arg),
          Event.git_reference_free (lib.git_branch_lookup (luaL_checkstring branch_name_arg)).out],
        free_reference_and_return
          (lib.git_branch_lookup (luaL_checkstring branch_name_arg)).out false) := by
    unfold f_git_repo_create_load_branch
    simp only
    rw [if_neg h1, if_neg h2]
  refine ⟨e, fun message => ?_⟩
  rw [e]
  unfold free_reference_and_return
  split <;> simp

/-- An invalid branch specification raises the lookup error. -/
theorem branch_lookup_invalid_spec (codes : BranchCodes) (lib : GitRefs)
    (branch_name_arg commit_name_arg : String)
    (h1 : (lib.git_branch_lookup (luaL_checkstring branch_name_arg)).code =
      codes.GIT_EINVALIDSPEC) :
    f_git_repo_create_load_branch codes lib branch_name_arg commit_name_arg =
      ([Event.git_branch_lookup (luaL_checkstring branch_name_arg)],
        Outcome.raises ("git branch lookup error: " ++
          (lib.git_branch_lookup (luaL_checkstring branch_name_arg)).error)) := by
  unfold f_git_repo_create_load_branch
  simp only
  rw [if_pos h1]

/-- A branch that is not found: the base commit is retrieved and the branch is
created at it.  The call raises when the retrieval or the creation fails, and
ends with the pushed `true` when the creation succeeds. -/
theorem branch_not_found (codes : BranchCodes) (lib : GitRefs)
    (branch_name_arg commit_name_arg : String)
    (h1 : (lib.git_branch_lookup (luaL_checkstring branch_name_arg)).code ≠
      codes.GIT_EINVALIDSPEC)
    (h2 : (lib.git_branch_lookup (luaL_checkstring branch_name_arg)).code =
      codes.GIT_ENOTFOUND) :
    (∀ message,
      (git_retrieve_commit lib (luaL_checkstring commit_name_arg)).2 = Except.error message →
      (f_git_repo_create_load_branch codes lib branch_name_arg commit_name_arg).2 =
        Outcome.raises message) ∧
    (∀ commit,
      (git_retrieve_commit lib (luaL_checkstring commit_name_arg)).2 = Except.ok commit →
      ((lib.git_branch_create (luaL_checkstring branch_name_arg) commit).code ≠ 0 →
        (f_git_repo_create_load_branch codes lib branch_name_arg commit_name_arg).2 =
          Outcome.raises ("git branch create error: " ++
            (lib.git_branch_create (luaL_checkstring branch_name_arg) commit).error)) ∧
      ((lib.git_branch_create (luaL_checkstring branch_name_arg) commit).code = 0 →
        (f_git_repo_create_load_branch codes lib branch_name_arg commit_name_arg).2 =
          free_reference_and_return
            (lib.git_branch_create (luaL_checkstring branch_name_arg) commit).out true ∧
        Event.git_branch_create (luaL_checkstring branch_name_arg) commit ∈
          (f_git_repo_create_load_branch codes lib branch_name_arg commit_name_arg).1)) := by
  unfold f_git_repo_create_load_branch
  simp only
  rw [if_neg h1, if_pos h2]
  constructor
  · intro message hm
    split
    · rename_i events m heq
      rw [heq] at hm
      simp only [Except.error.injEq] at hm
      rw [hm]
    · rename_i events c heq
      rw [heq] at hm
      exact absurd hm (by simp)
  · intro commit hc
    split
    · rename_i events m heq
      rw [heq] at hc
      exact absurd hc (by simp)
    · rename_i events c heq
      rw [heq] at hc
      simp only [Except.ok.injEq] at hc
      subst hc
      constructor
      · intro hne
        rw [if_pos hne]
      · intro hz
        rw [if_neg (not_not.mpr hz)]
        exact ⟨rfl, by simp⟩

set_option maxRecDepth 100000 in
/-- C11, the code at the failing input: the branch lookup fails with the code
-1, which is neither `GIT_EINVALIDSPEC` (-12) nor `GIT_ENOTFOUND` (-3).  The
call does not raise: it takes the `else` branch, pushes `false` ("existed") and
frees `reference`.  With a library that clears `reference` on failure the call
returns `false`; with one that leaves it unset the free is undefined.  For a
branch that is not found (-3) the same call creates it and returns `true`. -/
theorem branch_lookup_failure_reports_existed :
    (refs_lookup_error.git_branch_lookup (luaL_checkstring "topic")).code = -1 ∧
    f_git_repo_create_load_branch libgit2_codes refs_lookup_error "topic" "master" =
      ([Event.git_branch_lookup "topic", Event.git_reference_free RefPtr.null],
        Outcome.returns [LuaValue.boolean false]) ∧
    f_git_repo_create_load_branch libgit2_codes refs_lookup_error_unset "topic" "master" =
      ([Event.git_branch_lookup "topic", Event.git_reference_free RefPtr.unset],
        Outcome.undefined) ∧
    f_git_repo_create_load_branch libgit2_codes refs_branch_missing "topic" "master" =
      ([Event.git_branch_lookup "topic", Event.git_reference_name_to_id "master",
          Event.git_commit_lookup (oid_of_byte 1),
          Event.git_branch_create "topic" (oid_of_byte 1), Event.git_commit_free,
          Event.git_reference_free RefPtr.object],
        Outcome.returns [LuaValue.boolean true]) := by
  decide

/-! ## `f_git_repo_reset` -/

theorem char_toNat_eq_zero (c : Char) (h : c.toNat = 0) : c = NUL := by
  have hc : c = Char.ofNat c.toNat := (Char.ofNat_toNat c).symm
  rw [h] at hc
  exact hc

theorem char_eq_of_toNat_eq (c d : Char) (h : c.toNat = d.toNat) : c = d := by
  rw [← Char.ofNat_toNat c, ← Char.ofNat_toNat d, h]

/-- On C strings (no character is NUL) `strcmp` is 0 exactly for equal strings. -/
theorem strcmp_chars_eq_zero_iff (a b : List Char) (ha : NUL ∉ a) (hb : NUL ∉ b) :
    strcmp_chars a b = 0 ↔ a = b := by
  induction a generalizing b with
  | nil =>
    cases b with
    | nil => simp [strcmp_chars]
    | cons d ds =>
      simp only [strcmp_chars]
      constructor
      · intro h
        have hd : d.toNat = 0 := by omega
        exact absurd (List.mem_cons_self _ _) (char_toNat_eq_zero d hd ▸ hb)
      · intro h; simp at h
  | cons c cs ih =>
    cases b with
    | nil =>
      simp only [strcmp_chars]
      constructor
      · intro h
        have hc : c.toNat = 0 := by omega
        exact absurd (List.mem_cons_self _ _) (char_toNat_eq_zero c hc ▸ ha)
      · intro h; simp at h
    | cons d ds =>
      simp only [strcmp_chars]
      by_cases hcd : c = d
      · subst hcd
        rw [if_pos rfl, ih ds (fun h => ha (List.mem_cons_of_mem _ h))
          (fun h => hb (List.mem_cons_of_mem _ h))]
        simp
      · rw [if_neg hcd]
        constructor
        · intro h
          exact absurd (char_eq_of_toNat_eq c d (by omega)) hcd
        · intro h
          exact absurd (List.cons.inj h).1 hcd

theorem luaL_checkstring_no_nul (s : String) : NUL ∉ (luaL_checkstring s).data := by
  unfold luaL_checkstring
  intro h
  have := List.mem_takeWhile_imp h
  simp at this

theorem strcmp_checked_eq_zero_iff (s literal : String) (hl : NUL ∉ literal.data) :
    strcmp (luaL_checkstring s) literal = 0 ↔ luaL_checkstring s = literal := by
  unfold strcmp
  rw [strcmp_chars_eq_zero_iff _ _ (luaL_checkstring_no_nul s) hl]
  constructor
  · intro h; exact String.ext h
  · intro h; rw [h]

/-- The reset kind is selected by string equality on the C string of the mode. -/
theorem reset_type_of_checked (type_arg : String) :
    (reset_type_of (luaL_checkstring type_arg) = git_reset_t.GIT_RESET_MIXED ↔
      luaL_checkstring type_arg = "mixed") ∧
    (reset_type_of (luaL_checkstring type_arg) = git_reset_t.GIT_RESET_HARD ↔
      luaL_checkstring type_arg = "hard") ∧
    (reset_type_of (luaL_checkstring type_arg) = git_reset_t.GIT_RESET_SOFT ↔
      (luaL_checkstring type_arg ≠ "mixed" ∧ luaL_checkstring type_arg ≠ "hard")) := by
  have hm := strcmp_checked_eq_zero_iff type_arg "mixed" (by decide)
  have hh := strcmp_checked_eq_zero_iff type_arg "hard" (by decide)
  unfold reset_type_of
  by_cases h1 : luaL_checkstring type_arg = "mixed"
  · rw [if_pos (hm.mpr h1)]
    have hne : luaL_checkstring type_arg ≠ "hard" := by rw [h1]; decide
    simp [h1]
  · rw [if_neg (fun h => h1 (hm.mp h))]
    by_cases h2 : luaL_checkstring type_arg = "hard"
    · rw [if_pos (hh.mpr h2)]
      simp [h1, h2]
    · rw [if_neg (fun h => h2 (hh.mp h))]
      simp [h1, h2]

theorem reference_ne_reset (a b : String) :
    "git reference lookup error: " ++ a ≠ "git reset error: " ++ b := by
  intro h
  have h2 := congrArg String.data h
  simp at h2

theorem commit_lookup_ne_reset (a b : String) :
    "git commit lookup error: " ++ a ≠ "git reset error: " ++ b := by
  intro h
  have h2 := congrArg String.data h
  simp at h2

/-- The messages `git_retrieve_commit` leaves by are not reset messages. -/
theorem git_retrieve_commit_message (lib : GitRefs) (commit_name message : String)
    (h : (git_retrieve_commit lib commit_name).2 = Except.error message) (b : String) :
    message ≠ "git reset error: " ++ b := by
  unfold git_retrieve_commit at h
  simp only at h
  split at h
  · simp only [Except.error.injEq] at h
    rw [← h]
    exact reference_ne_reset _ _
  · split at h
    · simp only [Except.error.injEq] at h
      rw [← h]
      exact commit_lookup_ne_reset _ _
    · exact absurd h (by simp)

/-- The calls of `git_retrieve_commit` contain no reset. -/
theorem git_retrieve_commit_events (lib : GitRefs) (commit_name : String) (c : git_oid)
    (k : git_reset_t) : Event.git_reset c k ∉ (git_retrieve_commit lib commit_name).1 := by
  unfold git_retrieve_commit
  simp only
  rcases git_get_id_events lib.toGitRepo commit_name with h | h <;>
    split <;> (try split) <;> rw [h] <;> simp

/-- The run of `f_git_repo_reset` when the commit cannot be retrieved. -/
theorem reset_run_no_commit (lib : GitRefs) (commit_name_arg type_arg message : String)
    (h : (git_retrieve_commit lib (luaL_checkstring commit_name_arg)).2 =
      Except.error message) :
    f_git_repo_reset lib commit_name_arg type_arg =
      ((git_retrieve_commit lib (luaL_checkstring commit_name_arg)).1,
        Outcome.raises message) := by
  unfold f_git_repo_reset
  simp only
  split
  · rename_i events m heq
    rw [heq] at h
    simp only [Except.error.injEq] at h
    rw [heq, h]
  · rename_i events c heq
    rw [heq] at h
    exact absurd h (by simp)

/-- The run of `f_git_repo_reset` when the commit is retrieved. -/
theorem reset_run_commit (lib : GitRefs) (commit_name_arg type_arg : String) (commit : git_oid)
    (h : (git_retrieve_commit lib (luaL_checkstring commit_name_arg)).2 = Except.ok commit) :
    f_git_repo_reset lib commit_name_arg type_arg =
      ((git_retrieve_commit lib (luaL_checkstring commit_name_arg)).1 ++
          [Event.git_reset commit (reset_type_of (luaL_checkstring type_arg)),
            Event.git_commit_free],
        if (lib.git_reset commit (reset_type_of (luaL_checkstring type_arg))).code ≠ 0 then
          Outcome.raises ("git reset error: " ++
            (lib.git_reset commit (reset_type_of (luaL_checkstring type_arg))).error)
        else Outcome.returns []) := by
  unfold f_git_repo_reset
  simp only
  split
  · rename_i events m heq
    rw [heq] at h
    exact absurd h (by simp)
  · rename_i events c heq
    rw [heq] at h
    simp only [Except.ok.injEq] at h
    subst h
    rw [heq]
    split <;> rfl

/-- C12, as amended: for every mode string passed to reset, `f_git_repo_reset`
selects the reset kind by exact, case-sensitive comparison of the mode read as
a C string (its characters before the first NUL byte): "mixed" gives a mixed
reset, "hard" gives a hard reset, and every other string (including "soft", the
empty string and "Hard") gives a soft reset.  When the commit is retrieved,
`git_reset` is called once, on that commit with the selected kind.  Every error
the call raises is either the one `git_retrieve_commit` leaves by or
"git reset error: " with the library's text after a non-zero `git_reset`; the
call raises "git reset error" if and only if `git_reset` returned non-zero. -/
theorem reset_selects_mode (lib : GitRefs) (commit_name_arg type_arg : String) :
    (reset_type_of (luaL_checkstring type_arg) = git_reset_t.GIT_RESET_MIXED ↔
      luaL_checkstring type_arg = "mixed") ∧
    (reset_type_of (luaL_checkstring type_arg) = git_reset_t.GIT_RESET_HARD ↔
      luaL_checkstring type_arg = "hard") ∧
    (reset_type_of (luaL_checkstring type_arg) = git_reset_t.GIT_RESET_SOFT ↔
      (luaL_checkstring type_arg ≠ "mixed" ∧ luaL_checkstring type_arg ≠ "hard")) ∧
    reset_type_of (luaL_checkstring "soft") = git_reset_t.GIT_RESET_SOFT ∧
    reset_type_of (luaL_checkstring "") = git_reset_t.GIT_RESET_SOFT ∧
    reset_type_of (luaL_checkstring "Hard") = git_reset_t.GIT_RESET_SOFT ∧
    (∀ commit,
      (git_retrieve_commit lib (luaL_checkstring commit_name_arg)).2 = Except.ok commit →
      Event.git_reset commit (reset_type_of (luaL_checkstring type_arg)) ∈
        (f_git_repo_reset lib commit_name_arg type_arg).1 ∧
      (∀ c k, Event.git_reset c k ∈ (f_git_repo_reset lib commit_name_arg type_arg).1 →
        c = commit ∧ k = reset_type_of (luaL_checkstring type_arg)) ∧
      ((lib.git_reset commit (reset_type_of (luaL_checkstring type_arg))).code ≠ 0 →
        (f_git_repo_reset lib commit_name_arg type_arg).2 =
          Outcome.raises ("git reset error: " ++
            (lib.git_reset commit (reset_type_of (luaL_checkstring type_arg))).error)) ∧
      ((lib.git_reset commit (reset_type_of (luaL_checkstring type_arg))).code = 0 →
        (f_git_repo_reset lib commit_name_arg type_arg).2 = Outcome.returns [])) ∧
    (∀ message,
      (git_retrieve_commit lib (luaL_checkstring commit_name_arg)).2 = Except.error message →
      (f_git_repo_reset lib commit_name_arg type_arg).2 = Outcome.raises message ∧
      ∀ c k, Event.git_reset c k ∉ (f_git_repo_reset lib commit_name_arg type_arg).1) ∧
    (∀ message, (f_git_repo_reset lib commit_name_arg type_arg).2 = Outcome.raises message →
      (git_retrieve_commit lib (luaL_checkstring commit_name_arg)).2 = Except.error message ∨
      ∃ commit,
        (git_retrieve_commit lib (luaL_checkstring commit_name_arg)).2 = Except.ok commit ∧
        (lib.git_reset commit (reset_type_of (luaL_checkstring type_arg))).code ≠ 0 ∧
        message = "git reset error: " ++
          (lib.git_reset commit (reset_type_of (luaL_checkstring type_arg))).error) ∧
    ((∃ text, (f_git_repo_reset lib commit_name_arg type_arg).2 =
        Outcome.raises ("git reset error: " ++ text)) ↔
      ∃ commit,
        (git_retrieve_commit lib (luaL_checkstring commit_name_arg)).2 = Except.ok commit ∧
        (lib.git_reset commit (reset_type_of (luaL_checkstring type_arg))).code ≠ 0) := by
  obtain ⟨s1, s2, s3⟩ := reset_type_of_checked type_arg
  refine ⟨s1, s2, s3, by decide, by decide, by decide, ?_⟩
  cases hr : (git_retrieve_commit lib (luaL_checkstring commit_name_arg)).2 with
  | error m =>
    have hrun := reset_run_no_commit lib commit_name_arg type_arg m hr
    refine ⟨fun commit hc => absurd hc (by simp), fun message hm => ?_, fun message hm => ?_, ?_⟩
    · simp only [Except.error.injEq] at hm
      subst hm
      rw [hrun]
      exact ⟨rfl, fun c k => git_retrieve_commit_events lib _ c k⟩
    · rw [hrun] at hm
      simp only [Outcome.raises.injEq] at hm
      exact Or.inl (by rw [hm])
    · constructor
      · rintro ⟨text, ht⟩
        rw [hrun] at ht
        simp only [Outcome.raises.injEq] at ht
        exact absurd ht (git_retrieve_commit_message lib _ m hr text)
      · rintro ⟨commit, hc, _⟩
        exact absurd hc (by simp)
  | ok commit =>
    have hrun := reset_run_commit lib commit_name_arg type_arg commit hr
    refine ⟨fun c hc => ?_, fun message hm => absurd hm (by simp), fun message hm => ?_, ?_⟩
    · simp only [Except.ok.injEq] at hc
      subst hc
      rw [hrun]
      refine ⟨by simp, fun c k hck => ?_, fun hne => by rw [if_pos hne],
        fun hz => by rw [if_neg (not_not.mpr hz)]⟩
      simp only [List.mem_append, List.mem_cons, Event.git_reset.injEq, List.mem_singleton,
        List.not_mem_nil, or_false] at hck
      rcases hck with h | h | h
      · exact absurd h (git_retrieve_commit_events lib _ c k)
      · exact h
      · exact absurd h (by simp)
    · rw [hrun] at hm
      by_cases hz : (lib.git_reset commit (reset_type_of (luaL_checkstring type_arg))).code = 0
      · rw [if_neg (not_not.mpr hz)] at hm
        exact absurd hm (by simp)
      · rw [if_pos hz] at hm
        simp only [Outcome.raises.injEq] at hm
        exact Or.inr ⟨commit, rfl, hz, hm.symm⟩
    · rw [hrun]
      constructor
      · rintro ⟨text, ht⟩
        by_cases hz : (lib.git_reset commit (reset_type_of (luaL_checkstring type_arg))).code = 0
        · rw [if_neg (not_not.mpr hz)] at ht
          exact absurd ht (by simp)
        · exact ⟨commit, rfl, hz⟩
      · rintro ⟨c, hc, hne⟩
        simp only [Except.ok.injEq] at hc
        subst hc
        rw [if_pos hne]
        exact ⟨_, rfl⟩

set_option maxRecDepth 100000 in
/-- C12, instance of the amended claim: in `refs_reset_fails` the commit
`master` is retrieved, the mode `hard` selects the hard reset, the reset
returns non-zero, and the call raises the reset error. -/
theorem reset_selects_mode_witness :
    (git_retrieve_commit refs_reset_fails (luaL_checkstring "master")).2 =
      Except.ok (oid_of_byte 1) ∧
    reset_type_of (luaL_checkstring "hard") = git_reset_t.GIT_RESET_HARD ∧
    (refs_reset_fails.git_reset (oid_of_byte 1)
      (reset_type_of (luaL_checkstring "hard"))).code ≠ 0 ∧
    (f_git_repo_reset refs_reset_fails "master" "hard").2 =
      Outcome.raises ("git reset error: " ++
        (refs_reset_fails.git_reset (oid_of_byte 1)
          (reset_type_of (luaL_checkstring "hard"))).error) :=
  ⟨rfl, by decide, by decide,
    ((reset_selects_mode refs_reset_fails "master" "hard").2.2.2.2.2.2.1 (oid_of_byte 1)
      rfl).2.2.1 (by decide)⟩

set_option maxRecDepth 100000 in
/-- C12 fails as stated: the mode `mixed_nul_junk` (the ten bytes `mixed`, NUL,
`junk`) is a string other than "mixed" and "hard", yet the reset made for it is
a mixed reset, not a soft one: `strcmp` reads the mode as the C string `mixed`. -/
theorem reset_mode_with_nul_byte :
    mixed_nul_junk ≠ "mixed" ∧ mixed_nul_junk ≠ "hard" ∧
    mixed_nul_junk.data.length = 10 ∧
    luaL_checkstring mixed_nul_junk = "mixed" ∧
    f_git_repo_reset refs_ok "master" mixed_nul_junk =
      ([Event.git_reference_name_to_id "master", Event.git_commit_lookup (oid_of_byte 1),
          Event.git_reset (oid_of_byte 1) git_reset_t.GIT_RESET_MIXED, Event.git_commit_free],
        Outcome.returns []) := by
  decide

end LibGit2
